import Mathlib

/-!
OOFEM: CBS equation numbering, boundary beam, cohesive zone material.

A shallow embedding of the parts of the OOFEM sources that the specification
talks about:

* `src/fm/cbs.h`: the numbering schemes `VelocityEquationNumbering` and
  `PressureEquationNumbering` and the four instances a `CBS` solver holds;
* `src/sm/Elements/Beams/libeam3dboundarybeam.C`: the dof-id mask and the
  transformation matrix of `LIBeam3dBoundaryBeam`;
* `src/sm/Materials/InterfaceMaterials/intmatbilinearcz.h`: the material class
  of the bilinear cohesive zone model.

Conventions. A C++ `int` is a mathematical integer together with the explicit
wrap `wrapInt` of 32-bit two's complement wherever the code does arithmetic on
it. The matrix code is generic in its scalar type `R`, which only has to carry
the operations the code uses; a C++ `double` is the type `Double` below, IEEE
754 binary64 with round-to-nearest-even, signed zeros, infinities and NaN.
Mutating member functions return the new object next to their result.
-/

namespace oofem

/-! ## Machine integers -/

/-- Largest value of a 32-bit `int`. -/
def INT_MAX : Int := 2147483647

/-- Smallest value of a 32-bit `int`. -/
def INT_MIN : Int := -2147483648

/-- The value a 32-bit two's complement `int` holds after storing `x`, the
exact result of one addition or subtraction of two `int` values: a result above
`INT_MAX` comes back lowered by 2^32, a result below `INT_MIN` raised by 2^32
(`wrapInt_eq_emod` below: this is reduction modulo 2^32 into the `int` range). -/
def wrapInt (x : Int) : Int :=
  if INT_MAX < x then x - 4294967296 else if x < INT_MIN then x + 4294967296 else x

/-! ## Dof identifiers and Dofs -/

/-- Modelled from the spec: the enum `DofIDItem` is declared in `dofiditem.h`,
which is not among the sources. It is the semantic tag that identifies a Dof.
The enumerators named in `cbs.h` and `libeam3dboundarybeam.C` are listed by
name; `other` stands for every remaining enumerator. -/
inductive DofIDItem where
  | D_u | D_v | D_w
  | R_u | R_v | R_w
  | V_u | V_v | V_w
  | P_f
  | E_xx | E_zx | K_xx
  | other (tag : Nat)
  deriving DecidableEq, Repr

/-- Modelled from the spec: class `Dof` is declared in `dof.h`, which is not
among the sources. A Dof is identified by a semantic tag and carries an
equation number (free) and a separate prescribed-equation number; the three
fields are the three observers the numbering schemes call. -/
structure Dof where
  giveDofID : DofIDItem
  __giveEquationNumber : Int
  __givePrescribedEquationNumber : Int
  deriving DecidableEq, Repr

/-! ## `VelocityEquationNumbering` (cbs.h, lines 119-140) -/

/-- Members of `VelocityEquationNumbering`. -/
structure VelocityEquationNumbering where
  prescribed : Bool
  numEqs : Int
  deriving DecidableEq, Repr

namespace VelocityEquationNumbering

/-- Constructor `VelocityEquationNumbering(bool prescribed)`: `numEqs(0)`. -/
def construct (prescribed : Bool) : VelocityEquationNumbering :=
  { prescribed := prescribed, numEqs := 0 }

/-- Source: `bool isDefault() const { return !prescribed; }` -/
def isDefault (s : VelocityEquationNumbering) : Bool := !s.prescribed

/-- Source: `int giveDofEquationNumber(Dof *dof) const` -/
def giveDofEquationNumber (s : VelocityEquationNumbering) (dof : Dof) : Int :=
  let id := dof.giveDofID
  if id = DofIDItem.V_u ∨ id = DofIDItem.V_v ∨ id = DofIDItem.V_w then
    if s.prescribed then dof.__givePrescribedEquationNumber else dof.__giveEquationNumber
  else
    0

/-- Source: `int giveRequiredNumberOfDomainEquation() const { return numEqs; }` -/
def giveRequiredNumberOfDomainEquation (s : VelocityEquationNumbering) : Int := s.numEqs

/-- Source: `int askNewEquationNumber() { return ++numEqs; }`: the returned value and
the scheme after the call. -/
def askNewEquationNumber (s : VelocityEquationNumbering) : Int × VelocityEquationNumbering :=
  let n := wrapInt (s.numEqs + 1)
  (n, { s with numEqs := n })

/-- The values returned by `n` successive calls of `askNewEquationNumber`, in
call order, and the scheme after the last call. -/
def askMany : Nat → VelocityEquationNumbering → List Int × VelocityEquationNumbering
  | 0, s => ([], s)
  | n + 1, s =>
    let r := s.askNewEquationNumber
    let rest := askMany n r.2
    (r.1 :: rest.1, rest.2)

end VelocityEquationNumbering

/-! ## `PressureEquationNumbering` (cbs.h, lines 145-166) -/

/-- Members of `PressureEquationNumbering`. -/
structure PressureEquationNumbering where
  prescribed : Bool
  numEqs : Int
  deriving DecidableEq, Repr

namespace PressureEquationNumbering

/-- Constructor `PressureEquationNumbering(bool prescribed)`: `numEqs(0)`. -/
def construct (prescribed : Bool) : PressureEquationNumbering :=
  { prescribed := prescribed, numEqs := 0 }

/-- Source: `bool isDefault() const { return !prescribed; }` -/
def isDefault (s : PressureEquationNumbering) : Bool := !s.prescribed

/-- Source: `int giveDofEquationNumber(Dof *dof) const` -/
def giveDofEquationNumber (s : PressureEquationNumbering) (dof : Dof) : Int :=
  let id := dof.giveDofID
  if id = DofIDItem.P_f then
    if s.prescribed then dof.__givePrescribedEquationNumber else dof.__giveEquationNumber
  else
    0

/-- Source: `int giveRequiredNumberOfDomainEquation() const { return numEqs; }` -/
def giveRequiredNumberOfDomainEquation (s : PressureEquationNumbering) : Int := s.numEqs

/-- Source: `int askNewEquationNumber() { return ++numEqs; }`: the returned value and
the scheme after the call. -/
def askNewEquationNumber (s : PressureEquationNumbering) : Int × PressureEquationNumbering :=
  let n := wrapInt (s.numEqs + 1)
  (n, { s with numEqs := n })

/-- The values returned by `n` successive calls of `askNewEquationNumber`, in
call order, and the scheme after the last call. -/
def askMany : Nat → PressureEquationNumbering → List Int × PressureEquationNumbering
  | 0, s => ([], s)
  | n + 1, s =>
    let r := s.askNewEquationNumber
    let rest := askMany n r.2
    (r.1 :: rest.1, rest.2)

end PressureEquationNumbering

/-! ## The four scheme instances of `CBS` (cbs.h, lines 203-206) -/

/-- The numbering members of class `CBS`. -/
structure CBS where
  vnum : VelocityEquationNumbering
  vnumPrescribed : VelocityEquationNumbering
  pnum : PressureEquationNumbering
  pnumPrescribed : PressureEquationNumbering
  deriving DecidableEq, Repr

/-- Names of the four numbering members of `CBS`. -/
inductive SchemeMember where
  | vnum | vnumPrescribed | pnum | pnumPrescribed
  deriving DecidableEq, Repr

namespace CBS

/-- Source: `giveRequiredNumberOfDomainEquation()` of the named member. -/
def giveRequiredNumberOfDomainEquation (c : CBS) : SchemeMember → Int
  | SchemeMember.vnum => c.vnum.giveRequiredNumberOfDomainEquation
  | SchemeMember.vnumPrescribed => c.vnumPrescribed.giveRequiredNumberOfDomainEquation
  | SchemeMember.pnum => c.pnum.giveRequiredNumberOfDomainEquation
  | SchemeMember.pnumPrescribed => c.pnumPrescribed.giveRequiredNumberOfDomainEquation

/-- One call of `askNewEquationNumber()` on the named member: the returned
value and the solver after the call. -/
def askNewEquationNumber (c : CBS) : SchemeMember → Int × CBS
  | SchemeMember.vnum =>
    let r := c.vnum.askNewEquationNumber
    (r.1, { c with vnum := r.2 })
  | SchemeMember.vnumPrescribed =>
    let r := c.vnumPrescribed.askNewEquationNumber
    (r.1, { c with vnumPrescribed := r.2 })
  | SchemeMember.pnum =>
    let r := c.pnum.askNewEquationNumber
    (r.1, { c with pnum := r.2 })
  | SchemeMember.pnumPrescribed =>
    let r := c.pnumPrescribed.askNewEquationNumber
    (r.1, { c with pnumPrescribed := r.2 })

/-- An interleaving of calls: `askNewEquationNumber()` on the listed members,
one after the other. -/
def askInterleaved (c : CBS) : List SchemeMember → CBS
  | [] => c
  | m :: rest => askInterleaved (c.askNewEquationNumber m).2 rest

end CBS

/-! ## Arrays and matrices used by the boundary beam -/

/-- Modelled from the spec: class `IntArray` is declared in `intarray.h`, which
is not among the sources. An array of `int`; `at` is the 1-based access. -/
structure IntArray where
  values : List Int
  deriving DecidableEq, Repr

/-- Modelled from the spec: `IntArray::at(i)`, 1-based access (a position
outside the array reads as 0 here). -/
def IntArray.at (a : IntArray) (i : Nat) : Int := a.values.getD (i - 1) 0

/-- Modelled from the spec: class `FloatMatrix` is declared in `floatmatrix.h`,
which is not among the sources. A matrix of `nRows` by `nColumns` scalars;
`entry i j` is the component in row `i` and column `j`, both 1-based. -/
structure FloatMatrix (R : Type) where
  nRows : Nat
  nColumns : Nat
  entry : Nat → Nat → R

/-- Modelled from the spec: `FloatMatrix::at(i, j)`, the component in row `i`
and column `j`. -/
def FloatMatrix.at {R : Type} (m : FloatMatrix R) (i j : Nat) : R := m.entry i j

namespace FloatMatrix

variable {R : Type}

/-- Modelled from the spec: the assignment `m.at(i, j) = v`. -/
def setAt (m : FloatMatrix R) (i j : Nat) (v : R) : FloatMatrix R :=
  { m with entry := fun a b => if a = i ∧ b = j then v else m.entry a b }

/-- Modelled from the spec: `FloatMatrix::resize(rows, cols)` on a matrix
without content: `rows` by `cols` components, all zero. -/
def resize [Zero R] (rows cols : Nat) : FloatMatrix R :=
  { nRows := rows, nColumns := cols, entry := fun _ _ => 0 }

/-- Modelled from the spec: `FloatMatrix::beUnitMatrix()`: every component is
zeroed and the diagonal components are set to one. -/
def beUnitMatrix [Zero R] [One R] (m : FloatMatrix R) : FloatMatrix R :=
  { m with entry := fun a b => if a = b ∧ 1 ≤ a ∧ a ≤ m.nRows then 1 else 0 }

/-- Modelled from the spec: `FloatMatrix::resizeWithData(rows, cols)`: the new
size, the old components kept where both sizes have them, zero elsewhere. -/
def resizeWithData [Zero R] (m : FloatMatrix R) (rows cols : Nat) : FloatMatrix R :=
  { nRows := rows, nColumns := cols,
    entry := fun a b => if a ≤ m.nRows ∧ b ≤ m.nColumns then m.entry a b else 0 }

/-- Modelled from the spec: `FloatMatrix::assemble(src, rowind, colind)`: for
every row `i` and column `j` of `src` whose targets `rowind.at(i)` and
`colind.at(j)` are non-zero, `src.at(i, j)` is added to the component
`(rowind.at(i), colind.at(j))` of the receiver. -/
def assemble [Add R] (m src : FloatMatrix R) (rowind colind : IntArray) : FloatMatrix R :=
  (List.range src.nRows).foldl
    (fun acc i0 =>
      let ii := rowind.at (i0 + 1)
      if ii ≠ 0 then
        (List.range src.nColumns).foldl
          (fun acc2 j0 =>
            let jj := colind.at (j0 + 1)
            if jj ≠ 0 then
              acc2.setAt ii.toNat jj.toNat
                (acc2.at ii.toNat jj.toNat + src.at (i0 + 1) (j0 + 1))
            else acc2)
          acc
      else acc)
    m

end FloatMatrix

/-! ## `LIBeam3dBoundaryBeam` (libeam3dboundarybeam.C) -/

/-- Modelled from the spec: class `Node` is declared in `node.h`, which is not
among the sources. A node has a spatial position; `giveCoordinate i` is its
`i`-th coordinate, 1-based. -/
structure Node (R : Type) where
  giveCoordinate : Nat → R

/-- The data of a `LIBeam3dBoundaryBeam` that its member functions read: the
nodes (`giveNode`, 1-based), the member `location`, and the member function
`giveSwitches` of the base class `LIBeam3dBoundary`, which is not among the
sources and is taken as a parameter (it maps a location to its switches). -/
structure LIBeam3dBoundaryBeam (R : Type) where
  giveNode : Nat → Node R
  location : IntArray
  giveSwitches : Int → IntArray

namespace LIBeam3dBoundaryBeam

variable {R : Type}

/-- Source: `void giveDofManDofIDMask(int inode, IntArray &answer) const`
(lines 63-71); the result is the content of `answer`. -/
def giveDofManDofIDMask (inode : Int) : List DofIDItem :=
  if inode = 3 then
    [DofIDItem.E_xx, DofIDItem.E_zx, DofIDItem.K_xx]
  else
    [DofIDItem.D_u, DofIDItem.D_v, DofIDItem.D_w, DofIDItem.R_u, DofIDItem.R_v, DofIDItem.R_w]

/-- Source: `void computeTransformationMatrix(FloatMatrix &answer, TimeStep *tStep)`
(lines 74-110); the result is the content of `answer`. An `int` switch is
converted to a scalar by the integer conversion of the scalar type. -/
def computeTransformationMatrix [Zero R] [One R] [Add R] [Mul R] [Neg R] [IntCast R]
    (e : LIBeam3dBoundaryBeam R) : FloatMatrix R :=
  let unitCellSize : R := (e.giveNode 3).giveCoordinate 1
  let switches1 := e.giveSwitches (e.location.at 1)
  let switches2 := e.giveSwitches (e.location.at 2)
  let k1 : FloatMatrix R := FloatMatrix.resize 6 3
  let k2 : FloatMatrix R := FloatMatrix.resize 6 3
  let k1 := k1.setAt 1 1 (unitCellSize * ((switches1.at 1 : Int) : R))
  let k1 := k1.setAt 1 3
    ((-((e.giveNode 1).giveCoordinate 3)) * unitCellSize * ((switches1.at 1 : Int) : R))
  let k1 := k1.setAt 3 2 (unitCellSize * ((switches1.at 1 : Int) : R))
  let k1 := k1.setAt 5 3 ((-unitCellSize) * ((switches1.at 1 : Int) : R))
  let k2 := k2.setAt 1 1 (unitCellSize * ((switches2.at 1 : Int) : R))
  let k2 := k2.setAt 1 3
    ((-((e.giveNode 2).giveCoordinate 3)) * unitCellSize * ((switches2.at 1 : Int) : R))
  let k2 := k2.setAt 3 2 (unitCellSize * ((switches2.at 1 : Int) : R))
  let k2 := k2.setAt 5 3 ((-unitCellSize) * ((switches2.at 1 : Int) : R))
  let answer : FloatMatrix R := FloatMatrix.resize 12 12
  let answer := answer.beUnitMatrix
  let answer := answer.resizeWithData 12 15
  let answer := answer.assemble k1 ⟨[1, 2, 3, 4, 5, 6]⟩ ⟨[13, 14, 15]⟩
  answer.assemble k2 ⟨[7, 8, 9, 10, 11, 12]⟩ ⟨[13, 14, 15]⟩

end LIBeam3dBoundaryBeam

/-! ## The C++ type `double`: IEEE 754 binary64 -/

/-- Number of binary digits of `n` (0 for 0), by halving at most `fuel`
times. -/
def bitLenAux : Nat → Nat → Nat
  | 0, _ => 0
  | fuel + 1, n => if n = 0 then 0 else bitLenAux fuel (n / 2) + 1

/-- Number of binary digits of `n`: the least `b` with `n < 2 ^ b`. -/
def bitLen (n : Nat) : Nat := bitLenAux n n

/-- A value of the C++ type `double` (IEEE 754 binary64): a NaN, an infinity
with its sign, or a finite number with its sign bit `neg`, its biased exponent
field `e` (0 for zeros and subnormals) and its 52-bit fraction field `f`. -/
inductive Double where
  | nan
  | inf (neg : Bool)
  | fin (neg : Bool) (e : Fin 2047) (f : Fin (2 ^ 52))
  deriving DecidableEq, Repr

namespace Double

/-- Magnitude of a finite double as a multiple of 2^(-1074), the smallest
positive double: the fraction for a subnormal, and the significand with its
hidden bit shifted by the exponent otherwise. -/
def decode (e : Fin 2047) (f : Fin (2 ^ 52)) : Nat :=
  if e.val = 0 then f.val else (2 ^ 52 + f.val) * 2 ^ (e.val - 1)

/-- The double with sign `neg` and magnitude `n` times 2^(-1074), for an `n`
that needs at most 53 significant bits; an `n` of 2099 bits or more is beyond
the largest finite double and gives the infinity. -/
def encode (neg : Bool) (n : Nat) : Double :=
  if 2098 < bitLen n then inf neg
  else if bitLen n ≤ 52 then fin neg 0 ⟨n % 2 ^ 52, Nat.mod_lt _ (Nat.two_pow_pos 52)⟩
  else
    fin neg ⟨(bitLen n - 52) % 2047, Nat.mod_lt _ (by decide)⟩
      ⟨(n / 2 ^ (bitLen n - 53) - 2 ^ 52) % 2 ^ 52, Nat.mod_lt _ (Nat.two_pow_pos 52)⟩

/-- Rounding to nearest, ties to even: the double nearest to the exact
magnitude `N * 2 ^ up / 2 ^ down` in units of 2^(-1074). The `d` low bits of
`N` that do not fit 53 significant bits, or lie below 2^(-1074), are dropped;
the kept part goes up by one when the dropped part is more than half a unit,
or exactly half and the kept part is odd. -/
def round (neg : Bool) (N up down : Nat) : Double :=
  let d := max (bitLen N - 53) (down - up)
  let q := N / 2 ^ d
  let r := N % 2 ^ d
  let q' := if 2 ^ d < 2 * r ∨ (2 * r = 2 ^ d ∧ q % 2 = 1) then q + 1 else q
  encode neg (q' * 2 ^ (d + up - down))

/-- The product `x * y` of two doubles. -/
def mul : Double → Double → Double
  | nan, _ => nan
  | _, nan => nan
  | inf s, inf t => inf (xor s t)
  | inf s, fin t e f => if decode e f = 0 then nan else inf (xor s t)
  | fin s e f, inf t => if decode e f = 0 then nan else inf (xor s t)
  | fin s e f, fin t e2 f2 => round (xor s t) (decode e f * decode e2 f2) 0 1074

/-- The sum `x + y` of two doubles. -/
def add : Double → Double → Double
  | nan, _ => nan
  | _, nan => nan
  | inf s, inf t => if s = t then inf s else nan
  | inf s, fin _ _ _ => inf s
  | fin _ _ _, inf t => inf t
  | fin s e f, fin t e2 f2 =>
    if s = t then round s (decode e f + decode e2 f2) 0 0
    else if decode e2 f2 < decode e f then round s (decode e f - decode e2 f2) 0 0
    else if decode e f < decode e2 f2 then round t (decode e2 f2 - decode e f) 0 0
    else fin false 0 0

/-- The negation `-x` of a double. -/
def neg : Double → Double
  | nan => nan
  | inf s => inf (!s)
  | fin s e f => fin (!s) e f

/-- The conversion of an `int` to `double`. -/
def ofInt (i : Int) : Double := round (decide (i < 0)) i.natAbs 1074 0

/-- The double with the 64-bit IEEE encoding `b` (sign bit, 11 exponent bits,
52 fraction bits); every NaN encoding gives `nan`. -/
def ofBits (b : Nat) : Double :=
  let s := decide (b / 2 ^ 63 % 2 = 1)
  let e := b / 2 ^ 52 % 2048
  let f := b % 2 ^ 52
  if h : e < 2047 then fin s ⟨e, h⟩ ⟨f, Nat.mod_lt _ (Nat.two_pow_pos 52)⟩
  else if f = 0 then inf s else nan

/-- The 64-bit IEEE encoding of a double; `nan` gives the quiet NaN
0x7ff8000000000000. -/
def toBits : Double → Nat
  | nan => 0x7ff8000000000000
  | inf s => (if s then 2 ^ 63 else 0) + 2047 * 2 ^ 52
  | fin s e f => (if s then 2 ^ 63 else 0) + e.val * 2 ^ 52 + f.val

/-- Whether a double is finite (neither an infinity nor a NaN). -/
def isFinite : Double → Bool
  | fin _ _ _ => true
  | _ => false

/-- Whether a double is a zero, of either sign. -/
def isZero : Double → Bool
  | fin _ e f => decide (e.val = 0 ∧ f.val = 0)
  | _ => false

/-- Two doubles hold the same value: they are the same double, or both are
zeros (0.0 and -0.0). -/
def sameValue (x y : Double) : Prop := x = y ∨ (x.isZero = true ∧ y.isZero = true)

end Double

instance : Zero Double := ⟨Double.fin false 0 0⟩

instance : One Double := ⟨Double.fin false 1023 0⟩

instance : Add Double := ⟨Double.add⟩

instance : Mul Double := ⟨Double.mul⟩

instance : Neg Double := ⟨Double.neg⟩

instance : IntCast Double := ⟨Double.ofInt⟩

/-- A boundary beam with ordinary coordinates: node 1 has z = 0.3, node 2 has
z = 3.0, the control node 3 has x = 0.1 (the unit-cell size); every other
coordinate is 0.0 and the switches are (1, 0, 0) at every location. -/
def sampleBeam : LIBeam3dBoundaryBeam Double :=
  { giveNode := fun n =>
      if n = 1 then ⟨fun c => if c = 3 then Double.ofBits 0x3FD3333333333333 else 0⟩
      else if n = 2 then ⟨fun c => if c = 3 then Double.ofBits 0x4008000000000000 else 0⟩
      else ⟨fun c => if c = 1 then Double.ofBits 0x3FB999999999999A else 0⟩,
    location := ⟨[14, 14]⟩,
    giveSwitches := fun _ => ⟨[1, 0, 0]⟩ }

/-- The sample beam with its end nodes moved in x and y (to x = y = 1.0) and
with the switches (-1, 1, 0) at location 3 and (1, 0, -1) elsewhere; node 1 is
at location 3. -/
def sampleBeamShifted : LIBeam3dBoundaryBeam Double :=
  { giveNode := fun n =>
      if n = 1 then ⟨fun c => if c = 3 then Double.ofBits 0x3FD3333333333333 else 1⟩
      else if n = 2 then ⟨fun c => if c = 3 then Double.ofBits 0x4008000000000000 else 1⟩
      else ⟨fun c => if c = 1 then Double.ofBits 0x3FB999999999999A else 0⟩,
    location := ⟨[3, 14]⟩,
    giveSwitches := fun l => if l = 3 then ⟨[-1, 1, 0]⟩ else ⟨[1, 0, -1]⟩ }

/-- A boundary beam with trivial geometry (every coordinate of the end nodes
0.0) whose unit-cell size, the first coordinate of node 3, is +infinity; the
switches are (1, 0, 0) at every location. -/
def infiniteCellBeam : LIBeam3dBoundaryBeam Double :=
  { giveNode := fun n =>
      if n = 3 then ⟨fun c => if c = 1 then Double.inf false else 0⟩ else ⟨fun _ => 0⟩,
    location := ⟨[14, 14]⟩,
    giveSwitches := fun _ => ⟨[1, 0, 0]⟩ }

/-- The beam `infiniteCellBeam` with the switches (0, 1, 1) at every
location: both x-switches are 0. -/
def infiniteCellBeamZeroSwitch : LIBeam3dBoundaryBeam Double :=
  { giveNode := infiniteCellBeam.giveNode,
    location := ⟨[14, 14]⟩,
    giveSwitches := fun _ => ⟨[0, 1, 1]⟩ }

/-! ## `IntMatBilinearCZ` (intmatbilinearcz.h) -/

/-- Data members of `IntMatBilinearCZ` (lines 101-110). -/
structure IntMatBilinearCZ (R : Type) where
  mPenaltyStiffness : R
  mGIc : R
  mGIIc : R
  mSigmaF : R
  mMu : R
  mGamma : R
  mSemiExplicit : Bool

/-- Source: `bool hasAnalyticalTangentStiffness() const override { return false; }`
(line 124). -/
def IntMatBilinearCZ.hasAnalyticalTangentStiffness {R : Type} (_m : IntMatBilinearCZ R) : Bool :=
  false

/-! ## Helper lemmas: machine integers -/

theorem wrapInt_of_range (x : Int) (h0 : 0 ≤ x) (h1 : x ≤ 2147483647) : wrapInt x = x := by
  unfold wrapInt INT_MAX INT_MIN
  split_ifs <;> omega

theorem wrapInt_eq_emod (x : Int) (h0 : INT_MIN - 4294967296 ≤ x)
    (h1 : x ≤ INT_MAX + 4294967296) :
    wrapInt x = (x + 2147483648) % 4294967296 - 2147483648 := by
  unfold wrapInt INT_MAX INT_MIN at *
  split_ifs <;> omega

theorem count_succ_range (n : Nat) (x : Int) :
    ((List.range n).map (fun i : Nat => (i : Int) + 1)).count x
      = if 1 ≤ x ∧ x ≤ (n : Int) then 1 else 0 := by
  have hnd : ((List.range n).map (fun i : Nat => (i : Int) + 1)).Nodup := by
    apply List.Nodup.map _ (List.nodup_range n)
    intro a b hab
    simp only at hab
    omega
  have hmem : x ∈ (List.range n).map (fun i : Nat => (i : Int) + 1) ↔ 1 ≤ x ∧ x ≤ (n : Int) := by
    simp only [List.mem_map, List.mem_range]
    constructor
    · rintro ⟨i, hi, rfl⟩
      omega
    · rintro ⟨h1, h2⟩
      exact ⟨(x - 1).toNat, by omega, by omega⟩
  by_cases hx : 1 ≤ x ∧ x ≤ (n : Int)
  · rw [if_pos hx]
    exact List.count_eq_one_of_mem hnd (hmem.mpr hx)
  · rw [if_neg hx]
    exact List.count_eq_zero_of_not_mem (fun h => hx (hmem.mp h))

/-! ## Helper lemmas: successive calls -/

theorem velocity_askMany_eq (n : Nat) (s : VelocityEquationNumbering)
    (h0 : 0 ≤ s.numEqs) (h1 : s.numEqs + n ≤ 2147483647) :
    s.askMany n = ((List.range n).map (fun i : Nat => s.numEqs + ((i : Int) + 1)),
      { s with numEqs := s.numEqs + n }) := by
  induction n generalizing s with
  | zero => simp [VelocityEquationNumbering.askMany]
  | succ n ih =>
    have hw : wrapInt (s.numEqs + 1) = s.numEqs + 1 :=
      wrapInt_of_range _ (by omega) (by push_cast at h1; omega)
    have hrec := ih { s with numEqs := s.numEqs + 1 } (by simp; omega)
      (by push_cast at h1; simp; omega)
    simp only [VelocityEquationNumbering.askMany, VelocityEquationNumbering.askNewEquationNumber,
      hw, hrec, List.range_succ_eq_map, List.map_cons, List.map_map]
    refine Prod.ext ?_ ?_
    · simp only [Nat.cast_zero, zero_add, List.cons.injEq, true_and]
      apply List.map_congr_left
      intro i _
      simp only [Function.comp, Nat.succ_eq_add_one, Nat.cast_add, Nat.cast_one]
      omega
    · simp only [Nat.cast_add, Nat.cast_one]
      congr 1
      omega

theorem pressure_askMany_eq (n : Nat) (s : PressureEquationNumbering)
    (h0 : 0 ≤ s.numEqs) (h1 : s.numEqs + n ≤ 2147483647) :
    s.askMany n = ((List.range n).map (fun i : Nat => s.numEqs + ((i : Int) + 1)),
      { s with numEqs := s.numEqs + n }) := by
  induction n generalizing s with
  | zero => simp [PressureEquationNumbering.askMany]
  | succ n ih =>
    have hw : wrapInt (s.numEqs + 1) = s.numEqs + 1 :=
      wrapInt_of_range _ (by omega) (by push_cast at h1; omega)
    have hrec := ih { s with numEqs := s.numEqs + 1 } (by simp; omega)
      (by push_cast at h1; simp; omega)
    simp only [PressureEquationNumbering.askMany, PressureEquationNumbering.askNewEquationNumber,
      hw, hrec, List.range_succ_eq_map, List.map_cons, List.map_map]
    refine Prod.ext ?_ ?_
    · simp only [Nat.cast_zero, zero_add, List.cons.injEq, true_and]
      apply List.map_congr_left
      intro i _
      simp only [Function.comp, Nat.succ_eq_add_one, Nat.cast_add, Nat.cast_one]
      omega
    · simp only [Nat.cast_add, Nat.cast_one]
      congr 1
      omega

theorem velocity_askMany_construct (p : Bool) (n : Nat)
    (h : (n : Int) ≤ INT_MAX) :
    (VelocityEquationNumbering.construct p).askMany n
      = ((List.range n).map (fun i : Nat => (i : Int) + 1), { prescribed := p, numEqs := n }) := by
  have h1 : (n : Int) ≤ 2147483647 := h
  have := velocity_askMany_eq n (VelocityEquationNumbering.construct p)
    (by simp [VelocityEquationNumbering.construct])
    (by simp only [VelocityEquationNumbering.construct, zero_add]; exact h1)
  simpa [VelocityEquationNumbering.construct] using this

theorem pressure_askMany_construct (p : Bool) (n : Nat)
    (h : (n : Int) ≤ INT_MAX) :
    (PressureEquationNumbering.construct p).askMany n
      = ((List.range n).map (fun i : Nat => (i : Int) + 1), { prescribed := p, numEqs := n }) := by
  have h1 : (n : Int) ≤ 2147483647 := h
  have := pressure_askMany_eq n (PressureEquationNumbering.construct p)
    (by simp [PressureEquationNumbering.construct])
    (by simp only [PressureEquationNumbering.construct, zero_add]; exact h1)
  simpa [PressureEquationNumbering.construct] using this

theorem velocity_askMany_prescribed (n : Nat) (s : VelocityEquationNumbering) :
    (s.askMany n).2.prescribed = s.prescribed := by
  induction n generalizing s with
  | zero => rfl
  | succ n ih =>
    simp only [VelocityEquationNumbering.askMany]
    rw [ih]
    rfl

theorem pressure_askMany_prescribed (n : Nat) (s : PressureEquationNumbering) :
    (s.askMany n).2.prescribed = s.prescribed := by
  induction n generalizing s with
  | zero => rfl
  | succ n ih =>
    simp only [PressureEquationNumbering.askMany]
    rw [ih]
    rfl

/-! ## Helper lemmas: the four instances of `CBS` -/

theorem CBS.askNewEquationNumber_other (c : CBS) (m m' : SchemeMember) (h : m ≠ m') :
    (c.askNewEquationNumber m).2.giveRequiredNumberOfDomainEquation m'
      = c.giveRequiredNumberOfDomainEquation m' := by
  cases m <;> cases m' <;> first | exact absurd rfl h | rfl

theorem CBS.askNewEquationNumber_same (c : CBS) (m : SchemeMember) :
    (c.askNewEquationNumber m).2.giveRequiredNumberOfDomainEquation m
      = wrapInt (c.giveRequiredNumberOfDomainEquation m + 1) := by
  cases m <;> rfl

theorem CBS.askInterleaved_count (calls : List SchemeMember) (c : CBS) (m : SchemeMember)
    (h0 : 0 ≤ c.giveRequiredNumberOfDomainEquation m)
    (h1 : c.giveRequiredNumberOfDomainEquation m + (calls.count m : Int) ≤ 2147483647) :
    (c.askInterleaved calls).giveRequiredNumberOfDomainEquation m
      = c.giveRequiredNumberOfDomainEquation m + (calls.count m : Int) := by
  induction calls generalizing c with
  | nil => simp [CBS.askInterleaved]
  | cons a rest ih =>
    simp only [CBS.askInterleaved]
    by_cases ham : a = m
    · subst ham
      rw [List.count_cons_self] at h1 ⊢
      push_cast at h1 ⊢
      have hw : (c.askNewEquationNumber a).2.giveRequiredNumberOfDomainEquation a
          = c.giveRequiredNumberOfDomainEquation a + 1 := by
        rw [CBS.askNewEquationNumber_same]
        exact wrapInt_of_range _ (by omega) (by omega)
      rw [ih _ (by rw [hw]; omega) (by rw [hw]; omega), hw]
      omega
    · rw [List.count_cons_of_ne (fun h => ham h.symm)] at h1 ⊢
      have hw := CBS.askNewEquationNumber_other c a m ham
      rw [ih _ (by rw [hw]; exact h0) (by rw [hw]; exact h1), hw]

theorem CBS.askInterleaved_append (c : CBS) (l1 l2 : List SchemeMember) :
    c.askInterleaved (l1 ++ l2) = (c.askInterleaved l1).askInterleaved l2 := by
  induction l1 generalizing c with
  | nil => rfl
  | cons a rest ih =>
    simp only [List.cons_append, CBS.askInterleaved]
    exact ih _

theorem CBS.askInterleaved_replicate_succ (c : CBS) (m : SchemeMember) (n : Nat)
    (h0 : c.giveRequiredNumberOfDomainEquation m = 0) (hn : (n : Int) ≤ 2147483647) :
    (c.askInterleaved (List.replicate (n + 1) m)).giveRequiredNumberOfDomainEquation m
      = wrapInt ((n : Int) + 1) := by
  have hc : (List.replicate n m).count m = n := List.count_replicate_self m n
  rw [List.replicate_succ', CBS.askInterleaved_append]
  simp only [CBS.askInterleaved]
  rw [CBS.askNewEquationNumber_same,
    CBS.askInterleaved_count _ _ _ (by rw [h0]) (by rw [h0, hc]; omega), h0, hc, zero_add]

/-! ## Claims on the numbering schemes -/

/-- C1: for both numbering schemes, free or prescribed, the values returned by
`n` successive calls of `askNewEquationNumber()` on a freshly constructed
scheme (with `n` at most `INT_MAX`) contain every integer of `1..N` exactly
once and no other integer, where `N` is what
`giveRequiredNumberOfDomainEquation()` returns after those calls; the number of
values issued is `N`. -/
theorem C1_issued_numbers_dense (p : Bool) (n : Nat) (h : (n : Int) ≤ INT_MAX) :
    (∀ x : Int, ((VelocityEquationNumbering.construct p).askMany n).1.count x
        = if 1 ≤ x ∧ x ≤ ((VelocityEquationNumbering.construct p).askMany
            n).2.giveRequiredNumberOfDomainEquation then 1 else 0)
    ∧ ((((VelocityEquationNumbering.construct p).askMany n).1.length : Int)
        = ((VelocityEquationNumbering.construct p).askMany n).2.giveRequiredNumberOfDomainEquation)
    ∧ (∀ x : Int, ((PressureEquationNumbering.construct p).askMany n).1.count x
        = if 1 ≤ x ∧ x ≤ ((PressureEquationNumbering.construct p).askMany
            n).2.giveRequiredNumberOfDomainEquation then 1 else 0)
    ∧ ((((PressureEquationNumbering.construct p).askMany n).1.length : Int)
        = ((PressureEquationNumbering.construct p).askMany
            n).2.giveRequiredNumberOfDomainEquation) := by
  rw [velocity_askMany_construct p n h,
    pressure_askMany_construct p n h]
  refine ⟨fun x => ?_, ?_, fun x => ?_, ?_⟩
  · exact count_succ_range n x
  · simp [VelocityEquationNumbering.giveRequiredNumberOfDomainEquation]
  · exact count_succ_range n x
  · simp [PressureEquationNumbering.giveRequiredNumberOfDomainEquation]

/-- Witness of C1: three calls on a prescribed scheme; the value 2 is issued
once and the value 4 is not issued. -/
theorem C1_issued_numbers_dense_witness :
    ((3 : Nat) : Int) ≤ INT_MAX
    ∧ ((VelocityEquationNumbering.construct true).askMany 3).1.count 2
        = (if (1 : Int) ≤ 2 ∧ (2 : Int) ≤ ((VelocityEquationNumbering.construct true).askMany
            3).2.giveRequiredNumberOfDomainEquation then 1 else 0)
    ∧ ((PressureEquationNumbering.construct true).askMany 3).1.count 4
        = (if (1 : Int) ≤ 4 ∧ (4 : Int) ≤ ((PressureEquationNumbering.construct true).askMany
            3).2.giveRequiredNumberOfDomainEquation then 1 else 0) :=
  ⟨by decide, (C1_issued_numbers_dense true 3 (by decide)).1 2,
    (C1_issued_numbers_dense true 3 (by decide)).2.2.1 4⟩

/-- C2: a freshly constructed scheme of either class reports 0 required
equations; for every `k` from 1 to `INT_MAX` the `k`-th call of
`askNewEquationNumber()` returns `k`, and right after that call
`giveRequiredNumberOfDomainEquation()` returns `k`. -/
theorem C2_kth_call_returns_k (p : Bool) (k : Nat) (h1 : 1 ≤ k) (h2 : (k : Int) ≤ INT_MAX) :
    (VelocityEquationNumbering.construct p).giveRequiredNumberOfDomainEquation = 0
    ∧ (((VelocityEquationNumbering.construct p).askMany (k - 1)).2.askNewEquationNumber).1 = k
    ∧ (((VelocityEquationNumbering.construct p).askMany
          (k - 1)).2.askNewEquationNumber).2.giveRequiredNumberOfDomainEquation = k
    ∧ (PressureEquationNumbering.construct p).giveRequiredNumberOfDomainEquation = 0
    ∧ (((PressureEquationNumbering.construct p).askMany (k - 1)).2.askNewEquationNumber).1 = k
    ∧ (((PressureEquationNumbering.construct p).askMany
          (k - 1)).2.askNewEquationNumber).2.giveRequiredNumberOfDomainEquation = k := by
  have h2' : (k : Int) ≤ 2147483647 := h2
  have hk : ((k - 1 : Nat) : Int) ≤ INT_MAX := by
    show ((k - 1 : Nat) : Int) ≤ 2147483647
    omega
  have hw : wrapInt (((k - 1 : Nat) : Int) + 1) = k := by
    rw [wrapInt_of_range _ (by omega) (by omega)]
    omega
  rw [velocity_askMany_construct p (k - 1) hk,
    pressure_askMany_construct p (k - 1) hk]
  refine ⟨rfl, ?_, ?_, rfl, ?_, ?_⟩
  · simp only [VelocityEquationNumbering.askNewEquationNumber]
    exact hw
  · simp only [VelocityEquationNumbering.askNewEquationNumber,
      VelocityEquationNumbering.giveRequiredNumberOfDomainEquation]
    exact hw
  · simp only [PressureEquationNumbering.askNewEquationNumber]
    exact hw
  · simp only [PressureEquationNumbering.askNewEquationNumber,
      PressureEquationNumbering.giveRequiredNumberOfDomainEquation]
    exact hw

/-- Witness of C2: the second call on a free scheme. -/
theorem C2_kth_call_returns_k_witness :
    1 ≤ 2 ∧ ((2 : Nat) : Int) ≤ INT_MAX
    ∧ (VelocityEquationNumbering.construct false).giveRequiredNumberOfDomainEquation = 0
    ∧ (((VelocityEquationNumbering.construct false).askMany (2 - 1)).2.askNewEquationNumber).1
        = (2 : Nat)
    ∧ (((VelocityEquationNumbering.construct false).askMany
          (2 - 1)).2.askNewEquationNumber).2.giveRequiredNumberOfDomainEquation = (2 : Nat)
    ∧ (PressureEquationNumbering.construct false).giveRequiredNumberOfDomainEquation = 0
    ∧ (((PressureEquationNumbering.construct false).askMany (2 - 1)).2.askNewEquationNumber).1
        = (2 : Nat)
    ∧ (((PressureEquationNumbering.construct false).askMany
          (2 - 1)).2.askNewEquationNumber).2.giveRequiredNumberOfDomainEquation = (2 : Nat) :=
  ⟨by decide, by decide, C2_kth_call_returns_k false 2 (by decide) (by decide)⟩

/-- C3: `giveDofEquationNumber` returns 0 for a Dof outside the field of the
scheme, whatever the state of the scheme (free or prescribed, any count) and
whatever two numbers the Dof carries: the velocity scheme for a dof id other
than `V_u`, `V_v`, `V_w`, the pressure scheme for a dof id other than `P_f`. -/
theorem C3_zero_outside_field (sv : VelocityEquationNumbering) (sp : PressureEquationNumbering)
    (dofV dofP : Dof)
    (hV : dofV.giveDofID ≠ DofIDItem.V_u ∧ dofV.giveDofID ≠ DofIDItem.V_v
      ∧ dofV.giveDofID ≠ DofIDItem.V_w)
    (hP : dofP.giveDofID ≠ DofIDItem.P_f) :
    sv.giveDofEquationNumber dofV = 0 ∧ sp.giveDofEquationNumber dofP = 0 := by
  constructor
  · unfold VelocityEquationNumbering.giveDofEquationNumber
    simp [hV.1, hV.2.1, hV.2.2]
  · unfold PressureEquationNumbering.giveDofEquationNumber
    simp [hP]

/-- Witness of C3: a pressure Dof seen by a velocity scheme and a velocity Dof
seen by a pressure scheme, both carrying non-zero numbers. -/
theorem C3_zero_outside_field_witness :
    (DofIDItem.P_f ≠ DofIDItem.V_u ∧ DofIDItem.P_f ≠ DofIDItem.V_v
      ∧ DofIDItem.P_f ≠ DofIDItem.V_w)
    ∧ DofIDItem.V_u ≠ DofIDItem.P_f
    ∧ (VelocityEquationNumbering.mk true 9).giveDofEquationNumber
        { giveDofID := DofIDItem.P_f, __giveEquationNumber := 5,
          __givePrescribedEquationNumber := 7 } = 0
    ∧ (PressureEquationNumbering.mk false 9).giveDofEquationNumber
        { giveDofID := DofIDItem.V_u, __giveEquationNumber := 5,
          __givePrescribedEquationNumber := 7 } = 0 :=
  ⟨by decide, by decide,
    C3_zero_outside_field (VelocityEquationNumbering.mk true 9)
      (PressureEquationNumbering.mk false 9)
      { giveDofID := DofIDItem.P_f, __giveEquationNumber := 5,
        __givePrescribedEquationNumber := 7 }
      { giveDofID := DofIDItem.V_u, __giveEquationNumber := 5,
        __givePrescribedEquationNumber := 7 }
      (by decide) (by decide)⟩

/-- C4: for a Dof inside the field of the scheme, `giveDofEquationNumber`
returns the number of the partition selected at construction, after any number
`n` of `askNewEquationNumber()` calls: the prescribed equation number of the Dof
for a scheme constructed with `prescribed = true`, its free equation number for
one constructed with `prescribed = false`. Replacing the other number of the
Dof by any value `other` leaves the result unchanged. -/
theorem C4_selected_partition_inside_field (p : Bool) (n : Nat) (dofV dofP : Dof) (other : Int)
    (hV : dofV.giveDofID = DofIDItem.V_u ∨ dofV.giveDofID = DofIDItem.V_v
      ∨ dofV.giveDofID = DofIDItem.V_w)
    (hP : dofP.giveDofID = DofIDItem.P_f) :
    ((VelocityEquationNumbering.construct p).askMany n).2.giveDofEquationNumber dofV
        = (if p = true then dofV.__givePrescribedEquationNumber else dofV.__giveEquationNumber)
    ∧ ((PressureEquationNumbering.construct p).askMany n).2.giveDofEquationNumber dofP
        = (if p = true then dofP.__givePrescribedEquationNumber else dofP.__giveEquationNumber)
    ∧ ((VelocityEquationNumbering.construct p).askMany n).2.giveDofEquationNumber
          (if p = true then { dofV with __giveEquationNumber := other }
            else { dofV with __givePrescribedEquationNumber := other })
        = ((VelocityEquationNumbering.construct p).askMany n).2.giveDofEquationNumber dofV
    ∧ ((PressureEquationNumbering.construct p).askMany n).2.giveDofEquationNumber
          (if p = true then { dofP with __giveEquationNumber := other }
            else { dofP with __givePrescribedEquationNumber := other })
        = ((PressureEquationNumbering.construct p).askMany n).2.giveDofEquationNumber dofP := by
  have hv : ((VelocityEquationNumbering.construct p).askMany n).2.prescribed = p :=
    velocity_askMany_prescribed n (VelocityEquationNumbering.construct p)
  have hp : ((PressureEquationNumbering.construct p).askMany n).2.prescribed = p :=
    pressure_askMany_prescribed n (PressureEquationNumbering.construct p)
  unfold VelocityEquationNumbering.giveDofEquationNumber
    PressureEquationNumbering.giveDofEquationNumber
  rw [hv, hp]
  cases p <;> simp [hV, hP]

/-- Witness of C4: a prescribed scheme after two calls, a `V_v` Dof and a `P_f`
Dof with free number 5 and prescribed number 7. -/
theorem C4_selected_partition_inside_field_witness :
    (DofIDItem.V_v = DofIDItem.V_u ∨ DofIDItem.V_v = DofIDItem.V_v
      ∨ DofIDItem.V_v = DofIDItem.V_w)
    ∧ DofIDItem.P_f = DofIDItem.P_f
    ∧ ((VelocityEquationNumbering.construct true).askMany 2).2.giveDofEquationNumber
        { giveDofID := DofIDItem.V_v, __giveEquationNumber := 5,
          __givePrescribedEquationNumber := 7 } = 7
    ∧ ((PressureEquationNumbering.construct true).askMany 2).2.giveDofEquationNumber
        { giveDofID := DofIDItem.P_f, __giveEquationNumber := 5,
          __givePrescribedEquationNumber := 7 } = 7 :=
  ⟨by decide, by decide,
    (C4_selected_partition_inside_field true 2
      { giveDofID := DofIDItem.V_v, __giveEquationNumber := 5,
        __givePrescribedEquationNumber := 7 }
      { giveDofID := DofIDItem.P_f, __giveEquationNumber := 5,
        __givePrescribedEquationNumber := 7 } 0 (by decide) (by decide)).1,
    (C4_selected_partition_inside_field true 2
      { giveDofID := DofIDItem.V_v, __giveEquationNumber := 5,
        __givePrescribedEquationNumber := 7 }
      { giveDofID := DofIDItem.P_f, __giveEquationNumber := 5,
        __givePrescribedEquationNumber := 7 } 0 (by decide) (by decide)).2.1⟩

/-- C7: for both scheme classes `isDefault()` is the negation of the
`prescribed` flag given at construction (true exactly for a free scheme, false
for every prescribed scheme), and this holds after any number `n` of
`askNewEquationNumber()` calls. -/
theorem C7_isDefault_iff_free (p : Bool) (n : Nat) :
    ((VelocityEquationNumbering.construct p).askMany n).2.isDefault = !p
    ∧ ((PressureEquationNumbering.construct p).askMany n).2.isDefault = !p
    ∧ (((VelocityEquationNumbering.construct p).askMany n).2.isDefault = true ↔ p = false)
    ∧ (((PressureEquationNumbering.construct p).askMany n).2.isDefault = true ↔ p = false) := by
  have hv : ((VelocityEquationNumbering.construct p).askMany n).2.prescribed = p :=
    velocity_askMany_prescribed n (VelocityEquationNumbering.construct p)
  have hp : ((PressureEquationNumbering.construct p).askMany n).2.prescribed = p :=
    pressure_askMany_prescribed n (PressureEquationNumbering.construct p)
  unfold VelocityEquationNumbering.isDefault PressureEquationNumbering.isDefault
  rw [hv, hp]
  cases p <;> simp

/-- C8 fails as stated once one member is asked more often than an `int` can
count: after 2147483648 calls of `askNewEquationNumber()` on the fresh member
`vnum`, `giveRequiredNumberOfDomainEquation()` of `vnum` is -2147483648, not
2147483648, the number of calls made on it. -/
theorem C8_count_past_INT_MAX_counterexample :
    (CBS.askInterleaved
        { vnum := VelocityEquationNumbering.construct false,
          vnumPrescribed := VelocityEquationNumbering.construct true,
          pnum := PressureEquationNumbering.construct false,
          pnumPrescribed := PressureEquationNumbering.construct true }
        (List.replicate 2147483648 SchemeMember.vnum)).giveRequiredNumberOfDomainEquation
          SchemeMember.vnum = -2147483648
    ∧ (((List.replicate 2147483648 SchemeMember.vnum).count SchemeMember.vnum : Nat) : Int)
        = 2147483648
    ∧ ¬ ((CBS.askInterleaved
        { vnum := VelocityEquationNumbering.construct false,
          vnumPrescribed := VelocityEquationNumbering.construct true,
          pnum := PressureEquationNumbering.construct false,
          pnumPrescribed := PressureEquationNumbering.construct true }
        (List.replicate 2147483648 SchemeMember.vnum)).giveRequiredNumberOfDomainEquation
          SchemeMember.vnum
        = (((List.replicate 2147483648 SchemeMember.vnum).count SchemeMember.vnum : Nat) : Int)) := by
  have hw : wrapInt (((2147483647 : Nat) : Int) + 1) = -2147483648 := by decide
  have h1 := CBS.askInterleaved_replicate_succ
    { vnum := VelocityEquationNumbering.construct false,
      vnumPrescribed := VelocityEquationNumbering.construct true,
      pnum := PressureEquationNumbering.construct false,
      pnumPrescribed := PressureEquationNumbering.construct true }
    SchemeMember.vnum 2147483647 rfl (by decide)
  rw [hw] at h1
  have h2 : (List.replicate 2147483648 SchemeMember.vnum).count SchemeMember.vnum
      = 2147483648 := List.count_replicate_self SchemeMember.vnum 2147483648
  refine ⟨h1, ?_, ?_⟩
  · rw [h2]
    rfl
  · rw [h1, h2]
    decide

/-- C8, amended: the four scheme members of a `CBS` solver number
independently. A call of `askNewEquationNumber()` on member `m` leaves
`giveRequiredNumberOfDomainEquation()` of every other member `m'` unchanged, in
every state `c0` of the solver; and after any interleaving `calls` of calls on
the four freshly constructed members, the count of member `m` is the number of
calls made on `m` alone, as long as that number is at most `INT_MAX`. -/
theorem C8_four_instances_independent (a b c d : Bool) (calls : List SchemeMember)
    (m : SchemeMember) (h : (calls.count m : Int) ≤ INT_MAX) :
    (∀ (c0 : CBS) (m' : SchemeMember), m ≠ m' →
        (c0.askNewEquationNumber m).2.giveRequiredNumberOfDomainEquation m'
          = c0.giveRequiredNumberOfDomainEquation m')
    ∧ (CBS.askInterleaved
          { vnum := VelocityEquationNumbering.construct a,
            vnumPrescribed := VelocityEquationNumbering.construct b,
            pnum := PressureEquationNumbering.construct c,
            pnumPrescribed := PressureEquationNumbering.construct d }
          calls).giveRequiredNumberOfDomainEquation m = (calls.count m : Int) := by
  refine ⟨fun c0 m' hm => CBS.askNewEquationNumber_other c0 m m' hm, ?_⟩
  have h' : (calls.count m : Int) ≤ 2147483647 := h
  have h0 : (CBS.mk (VelocityEquationNumbering.construct a) (VelocityEquationNumbering.construct b)
      (PressureEquationNumbering.construct c)
      (PressureEquationNumbering.construct d)).giveRequiredNumberOfDomainEquation m = 0 := by
    cases m <;> rfl
  rw [CBS.askInterleaved_count calls _ m (by rw [h0]) (by rw [h0]; omega), h0]
  omega

/-- Witness of C8: five interleaved calls, two of them on `pnum`. -/
theorem C8_four_instances_independent_witness :
    (([SchemeMember.pnum, SchemeMember.vnum, SchemeMember.vnumPrescribed, SchemeMember.pnum,
        SchemeMember.vnum].count SchemeMember.pnum : Nat) : Int) ≤ INT_MAX
    ∧ (CBS.askInterleaved
          { vnum := VelocityEquationNumbering.construct false,
            vnumPrescribed := VelocityEquationNumbering.construct true,
            pnum := PressureEquationNumbering.construct false,
            pnumPrescribed := PressureEquationNumbering.construct true }
          [SchemeMember.pnum, SchemeMember.vnum, SchemeMember.vnumPrescribed, SchemeMember.pnum,
            SchemeMember.vnum]).giveRequiredNumberOfDomainEquation SchemeMember.pnum
        = (([SchemeMember.pnum, SchemeMember.vnum, SchemeMember.vnumPrescribed,
            SchemeMember.pnum, SchemeMember.vnum].count SchemeMember.pnum : Nat) : Int) :=
  ⟨by decide,
    (C8_four_instances_independent false true false true
      [SchemeMember.pnum, SchemeMember.vnum, SchemeMember.vnumPrescribed, SchemeMember.pnum,
        SchemeMember.vnum] SchemeMember.pnum (by decide)).2⟩


theorem FloatMatrix.assemble_inner_entry {R : Type} [Add R] (src : FloatMatrix R)
    (colind : IntArray) (r i a b : Nat) (js : List Nat) (acc : FloatMatrix R) :
    (js.foldl
        (fun acc2 j0 =>
          let jj := colind.at (j0 + 1)
          if jj ≠ 0 then
            acc2.setAt r jj.toNat (acc2.at r jj.toNat + src.at i (j0 + 1))
          else acc2)
        acc).entry a b
      = js.foldl
          (fun v j0 =>
            if colind.at (j0 + 1) ≠ 0 ∧ a = r ∧ b = (colind.at (j0 + 1)).toNat
            then v + src.entry i (j0 + 1) else v)
          (acc.entry a b) := by
  induction js generalizing acc with
  | nil => rfl
  | cons j0 js ih =>
    simp only [List.foldl_cons]
    rw [ih]
    congr 1
    by_cases hjj : colind.at (j0 + 1) = 0
    · simp [hjj]
    · by_cases hab : a = r ∧ b = (colind.at (j0 + 1)).toNat
      · obtain ⟨ha, hb⟩ := hab
        subst ha
        subst hb
        simp [hjj, FloatMatrix.setAt, FloatMatrix.at]
      · simp only [ne_eq, hjj, not_false_eq_true, if_true, hab, and_false, if_false,
          FloatMatrix.setAt]

theorem FloatMatrix.assemble_entry {R : Type} [Add R] (m src : FloatMatrix R)
    (rowind colind : IntArray) (a b : Nat) :
    (m.assemble src rowind colind).entry a b
      = (List.range src.nRows).foldl
          (fun v i0 =>
            if rowind.at (i0 + 1) ≠ 0 then
              (List.range src.nColumns).foldl
                (fun w j0 =>
                  if colind.at (j0 + 1) ≠ 0 ∧ a = (rowind.at (i0 + 1)).toNat
                      ∧ b = (colind.at (j0 + 1)).toNat
                  then w + src.entry (i0 + 1) (j0 + 1) else w)
                v
            else v)
          (m.entry a b) := by
  unfold FloatMatrix.assemble
  generalize List.range src.nRows = is
  induction is generalizing m with
  | nil => rfl
  | cons i0 is ih =>
    simp only [List.foldl_cons]
    rw [ih]
    congr 1
    by_cases hii : rowind.at (i0 + 1) = 0
    · simp [hii]
    · simp only [ne_eq, hii, not_false_eq_true, if_true]
      exact FloatMatrix.assemble_inner_entry src colind _ (i0 + 1) a b _ m

theorem FloatMatrix.assemble_size {R : Type} [Add R] (m src : FloatMatrix R)
    (rowind colind : IntArray) :
    (m.assemble src rowind colind).nRows = m.nRows
      ∧ (m.assemble src rowind colind).nColumns = m.nColumns := by
  unfold FloatMatrix.assemble
  generalize List.range src.nRows = is
  induction is generalizing m with
  | nil => simp
  | cons i0 is ih =>
    simp only [List.foldl_cons]
    rw [(ih _).1, (ih _).2]
    by_cases hii : rowind.at (i0 + 1) = 0
    · simp [hii]
    · simp only [ne_eq, hii, not_false_eq_true, if_true]
      generalize List.range src.nColumns = js
      induction js generalizing m with
      | nil => simp
      | cons j0 js ihj =>
        simp only [List.foldl_cons]
        rw [(ihj _).1, (ihj _).2]
        by_cases hjj : colind.at (j0 + 1) = 0
        · simp [hjj]
        · simp [hjj, FloatMatrix.setAt]

theorem LIBeam3dBoundaryBeam.computeTransformationMatrix_size {R : Type} [Zero R] [One R]
    [Add R] [Mul R] [Neg R] [IntCast R] (e : LIBeam3dBoundaryBeam R) :
    e.computeTransformationMatrix.nRows = 12 ∧ e.computeTransformationMatrix.nColumns = 15 := by
  unfold LIBeam3dBoundaryBeam.computeTransformationMatrix
  simp only [(FloatMatrix.assemble_size _ _ _ _).1, (FloatMatrix.assemble_size _ _ _ _).2]
  exact ⟨rfl, rfl⟩

theorem range_six : List.range 6 = [0, 1, 2, 3, 4, 5] := by decide

theorem range_three : List.range 3 = [0, 1, 2] := by decide

theorem LIBeam3dBoundaryBeam.computeTransformationMatrix_entry {R : Type} [Zero R] [One R]
    [Add R] [Mul R] [Neg R] [IntCast R] (e : LIBeam3dBoundaryBeam R) (i j : Nat)
    (hi : 1 ≤ i ∧ i ≤ 12) (hj : 1 ≤ j ∧ j ≤ 15) :
    e.computeTransformationMatrix.at i j =
      if j ≤ 12 then (if i = j then 1 else 0)
      else 0 +
        (if i = 1 ∧ j = 13 then
          (e.giveNode 3).giveCoordinate 1 * (((e.giveSwitches (e.location.at 1)).at 1 : Int) : R)
        else if i = 1 ∧ j = 15 then
          -((e.giveNode 1).giveCoordinate 3) * (e.giveNode 3).giveCoordinate 1
            * (((e.giveSwitches (e.location.at 1)).at 1 : Int) : R)
        else if i = 3 ∧ j = 14 then
          (e.giveNode 3).giveCoordinate 1 * (((e.giveSwitches (e.location.at 1)).at 1 : Int) : R)
        else if i = 5 ∧ j = 15 then
          -((e.giveNode 3).giveCoordinate 1)
            * (((e.giveSwitches (e.location.at 1)).at 1 : Int) : R)
        else if i = 7 ∧ j = 13 then
          (e.giveNode 3).giveCoordinate 1 * (((e.giveSwitches (e.location.at 2)).at 1 : Int) : R)
        else if i = 7 ∧ j = 15 then
          -((e.giveNode 2).giveCoordinate 3) * (e.giveNode 3).giveCoordinate 1
            * (((e.giveSwitches (e.location.at 2)).at 1 : Int) : R)
        else if i = 9 ∧ j = 14 then
          (e.giveNode 3).giveCoordinate 1 * (((e.giveSwitches (e.location.at 2)).at 1 : Int) : R)
        else if i = 11 ∧ j = 15 then
          -((e.giveNode 3).giveCoordinate 1)
            * (((e.giveSwitches (e.location.at 2)).at 1 : Int) : R)
        else 0) := by
  generalize hs1 : (((e.giveSwitches (e.location.at 1)).at 1 : Int) : R) = s1
  generalize hs2 : (((e.giveSwitches (e.location.at 2)).at 1 : Int) : R) = s2
  generalize hL : (e.giveNode 3).giveCoordinate 1 = L
  generalize hz1 : (e.giveNode 1).giveCoordinate 3 = z1
  generalize hz2 : (e.giveNode 2).giveCoordinate 3 = z2
  obtain ⟨hi1, hi2⟩ := hi
  obtain ⟨hj1, hj2⟩ := hj
  unfold LIBeam3dBoundaryBeam.computeTransformationMatrix
  simp only [FloatMatrix.at, hs1, hs2, hL, hz1, hz2]
  rw [FloatMatrix.assemble_entry, FloatMatrix.assemble_entry]
  simp only [FloatMatrix.resize, FloatMatrix.setAt, FloatMatrix.beUnitMatrix,
    FloatMatrix.resizeWithData, range_six, range_three, List.foldl_cons, List.foldl_nil,
    IntArray.at]
  have hcases : j ≤ 12 ∨ j = 13 ∨ j = 14 ∨ j = 15 := by omega
  rcases hcases with h | h | h | h
  · have h13 : j ≠ 13 := by omega
    have h14 : j ≠ 14 := by omega
    have h15 : j ≠ 15 := by omega
    simp [h13, h14, h15, h, hi1, hi2]
  · subst h
    interval_cases i <;> simp
  · subst h
    interval_cases i <;> simp
  · subst h
    interval_cases i <;> simp

theorem LIBeam3dBoundaryBeam.computeTransformationMatrix_at_1_13 {R : Type} [Zero R] [One R]
    [Add R] [Mul R] [Neg R] [IntCast R] (e : LIBeam3dBoundaryBeam R) :
    e.computeTransformationMatrix.at 1 13 =
      0 + (e.giveNode 3).giveCoordinate 1
        * (((e.giveSwitches (e.location.at 1)).at 1 : Int) : R) := by
  rw [LIBeam3dBoundaryBeam.computeTransformationMatrix_entry e 1 13 (by decide) (by decide)]
  simp

theorem LIBeam3dBoundaryBeam.computeTransformationMatrix_at_1_15 {R : Type} [Zero R] [One R]
    [Add R] [Mul R] [Neg R] [IntCast R] (e : LIBeam3dBoundaryBeam R) :
    e.computeTransformationMatrix.at 1 15 =
      0 + -((e.giveNode 1).giveCoordinate 3) * (e.giveNode 3).giveCoordinate 1
        * (((e.giveSwitches (e.location.at 1)).at 1 : Int) : R) := by
  rw [LIBeam3dBoundaryBeam.computeTransformationMatrix_entry e 1 15 (by decide) (by decide)]
  simp

theorem LIBeam3dBoundaryBeam.computeTransformationMatrix_at_7_15 {R : Type} [Zero R] [One R]
    [Add R] [Mul R] [Neg R] [IntCast R] (e : LIBeam3dBoundaryBeam R) :
    e.computeTransformationMatrix.at 7 15 =
      0 + -((e.giveNode 2).giveCoordinate 3) * (e.giveNode 3).giveCoordinate 1
        * (((e.giveSwitches (e.location.at 2)).at 1 : Int) : R) := by
  rw [LIBeam3dBoundaryBeam.computeTransformationMatrix_entry e 7 15 (by decide) (by decide)]
  simp

/-! ## Helper lemmas: IEEE doubles -/

theorem bitLenAux_spec (fuel n : Nat) (h : n ≤ fuel) (hn : n ≠ 0) :
    2 ^ (bitLenAux fuel n - 1) ≤ n ∧ n < 2 ^ bitLenAux fuel n ∧ 1 ≤ bitLenAux fuel n := by
  induction fuel generalizing n with
  | zero => omega
  | succ fuel ih =>
    simp only [bitLenAux, hn, if_false]
    by_cases h2 : n / 2 = 0
    · have h1 : n = 1 := by omega
      subst h1
      cases fuel <;> simp [bitLenAux]
    · obtain ⟨a, b, c⟩ := ih (n / 2) (by omega) h2
      refine ⟨?_, ?_, by omega⟩
      · have : bitLenAux fuel (n / 2) + 1 - 1 = (bitLenAux fuel (n / 2) - 1) + 1 := by omega
        rw [this, pow_succ]
        omega
      · rw [pow_succ]
        omega

theorem bitLen_zero : bitLen 0 = 0 := rfl

theorem bitLen_spec (n : Nat) (hn : n ≠ 0) :
    2 ^ (bitLen n - 1) ≤ n ∧ n < 2 ^ bitLen n ∧ 1 ≤ bitLen n :=
  bitLenAux_spec n n (le_refl n) hn

theorem bitLen_eq (n b : Nat) (h1 : 2 ^ b ≤ n) (h2 : n < 2 ^ (b + 1)) : bitLen n = b + 1 := by
  have hn : n ≠ 0 := by
    have := Nat.two_pow_pos b
    omega
  obtain ⟨a, c, d⟩ := bitLen_spec n hn
  have h3 : b < bitLen n := (Nat.pow_lt_pow_iff_right (by decide : 1 < 2)).mp (lt_of_le_of_lt h1 c)
  have h4 : bitLen n - 1 < b + 1 :=
    (Nat.pow_lt_pow_iff_right (by decide : 1 < 2)).mp (lt_of_le_of_lt a h2)
  omega

theorem bitLen_le (n b : Nat) (h : n < 2 ^ b) : bitLen n ≤ b := by
  by_cases hn : n = 0
  · subst hn
    simp [bitLen_zero]
  · obtain ⟨a, c, d⟩ := bitLen_spec n hn
    have h4 : bitLen n - 1 < b :=
      (Nat.pow_lt_pow_iff_right (by decide : 1 < 2)).mp (lt_of_le_of_lt a h)
    omega


theorem bitLen_mul_pow (n j : Nat) (hn : n ≠ 0) : bitLen (n * 2 ^ j) = bitLen n + j := by
  obtain ⟨a, c, d⟩ := bitLen_spec n hn
  have h1 : 2 ^ (bitLen n - 1 + j) ≤ n * 2 ^ j := by
    rw [pow_add]
    exact Nat.mul_le_mul_right _ a
  have h2 : n * 2 ^ j < 2 ^ (bitLen n - 1 + j + 1) := by
    have : bitLen n - 1 + j + 1 = bitLen n + j := by omega
    rw [this, pow_add]
    exact Nat.mul_lt_mul_of_pos_right c (Nat.two_pow_pos j)
  rw [bitLen_eq _ _ h1 h2]
  omega

theorem Double.decode_zero_exp (e : Fin 2047) (f : Fin (2 ^ 52)) (he : e.val = 0) :
    Double.decode e f = f.val := by
  unfold Double.decode
  rw [if_pos he]

theorem Double.decode_pos_exp (e : Fin 2047) (f : Fin (2 ^ 52)) (he : e.val ≠ 0) :
    Double.decode e f = (2 ^ 52 + f.val) * 2 ^ (e.val - 1) := by
  unfold Double.decode
  rw [if_neg he]

theorem Double.decode_bounds (e : Fin 2047) (f : Fin (2 ^ 52)) (he : e.val ≠ 0) :
    2 ^ (51 + e.val) ≤ Double.decode e f ∧ Double.decode e f < 2 ^ (51 + e.val + 1) := by
  rw [Double.decode_pos_exp e f he]
  have hf := f.isLt
  have hp := Nat.two_pow_pos (e.val - 1)
  have h1 : 2 ^ (51 + e.val) = 2 ^ 52 * 2 ^ (e.val - 1) := by
    rw [← pow_add]
    congr 1
    omega
  have h2 : 2 ^ (51 + e.val + 1) = (2 ^ 52 + 2 ^ 52) * 2 ^ (e.val - 1) := by
    rw [← two_mul, ← pow_succ', ← pow_add]
    congr 1
    omega
  rw [h1, h2]
  constructor
  · exact Nat.mul_le_mul_right _ (Nat.le_add_right _ _)
  · exact Nat.mul_lt_mul_of_pos_right (by omega) hp

theorem Double.bitLen_decode (e : Fin 2047) (f : Fin (2 ^ 52)) (he : e.val ≠ 0) :
    bitLen (Double.decode e f) = 52 + e.val := by
  have h := Double.decode_bounds e f he
  rw [bitLen_eq _ (51 + e.val) h.1 h.2]
  omega

theorem Double.bitLen_decode_sub (e : Fin 2047) (f : Fin (2 ^ 52)) (he : e.val = 0) :
    bitLen (Double.decode e f) ≤ 52 := by
  rw [Double.decode_zero_exp e f he]
  exact bitLen_le _ _ f.isLt

theorem Double.encode_decode (s : Bool) (e : Fin 2047) (f : Fin (2 ^ 52)) :
    Double.encode s (Double.decode e f) = Double.fin s e f := by
  unfold Double.encode
  by_cases he : e.val = 0
  · have hd := Double.decode_zero_exp e f he
    have hb := Double.bitLen_decode_sub e f he
    rw [if_neg (by omega), if_pos hb]
    refine congrArg₂ (Double.fin s) (Fin.ext ?_) (Fin.ext ?_)
    · exact he.symm
    · show Double.decode e f % 2 ^ 52 = f.val
      rw [hd, Nat.mod_eq_of_lt f.isLt]
  · have hbl := Double.bitLen_decode e f he
    have hlt := e.isLt
    rw [if_neg (by omega), if_neg (by omega)]
    refine congrArg₂ (Double.fin s) (Fin.ext ?_) (Fin.ext ?_)
    · show (bitLen (Double.decode e f) - 52) % 2047 = e.val
      rw [hbl, Nat.add_sub_cancel_left, Nat.mod_eq_of_lt e.isLt]
    · show (Double.decode e f / 2 ^ (bitLen (Double.decode e f) - 53) - 2 ^ 52) % 2 ^ 52 = f.val
      have h53 : 52 + e.val - 53 = e.val - 1 := by omega
      rw [hbl, h53, Double.decode_pos_exp e f he,
        Nat.mul_div_cancel _ (Nat.two_pow_pos _), Nat.add_sub_cancel_left,
        Nat.mod_eq_of_lt f.isLt]

theorem Double.decode_dvd (e : Fin 2047) (f : Fin (2 ^ 52)) :
    2 ^ (bitLen (Double.decode e f) - 53) ∣ Double.decode e f := by
  by_cases he : e.val = 0
  · have hb := Double.bitLen_decode_sub e f he
    have : bitLen (Double.decode e f) - 53 = 0 := by omega
    rw [this, pow_zero]
    exact one_dvd _
  · have hbl := Double.bitLen_decode e f he
    have h53 : 52 + e.val - 53 = e.val - 1 := by omega
    rw [hbl, h53, Double.decode_pos_exp e f he]
    exact Dvd.intro_left _ rfl

theorem Double.round_exact (s : Bool) (e : Fin 2047) (f : Fin (2 ^ 52)) (j : Nat) :
    Double.round s (Double.decode e f * 2 ^ j) 0 j = Double.fin s e f := by
  have hdvd := Double.decode_dvd e f
  generalize ht : bitLen (Double.decode e f) - 53 = t at hdvd
  have hd : max (bitLen (Double.decode e f * 2 ^ j) - 53) (j - 0) = t + j := by
    by_cases hn : Double.decode e f = 0
    · rw [hn] at ht
      rw [hn, Nat.zero_mul, bitLen_zero]
      rw [bitLen_zero] at ht
      omega
    · rw [bitLen_mul_pow _ _ hn]
      omega
  obtain ⟨c, hc⟩ := hdvd
  have hq : Double.decode e f * 2 ^ j / 2 ^ (t + j) = c := by
    rw [pow_add, Nat.mul_div_mul_right _ _ (Nat.two_pow_pos j), hc,
      Nat.mul_div_cancel_left _ (Nat.two_pow_pos t)]
  have hr : Double.decode e f * 2 ^ j % 2 ^ (t + j) = 0 := by
    rw [pow_add, Nat.mul_mod_mul_right, hc, Nat.mul_mod_right, Nat.zero_mul]
  have hp := Nat.two_pow_pos (t + j)
  unfold Double.round
  simp only [hd, hq, hr, Nat.mul_zero]
  rw [if_neg (by omega)]
  have : c * 2 ^ (t + j + 0 - j) = Double.decode e f := by
    have : t + j + 0 - j = t := by omega
    rw [this, hc, Nat.mul_comm]
  rw [this, Double.encode_decode]


theorem Double.decode_zero : Double.decode 0 0 = 0 := by
  rw [Double.decode_zero_exp 0 0 rfl]
  rfl

theorem Double.decode_pow (e : Fin 2047) (he : e.val ≠ 0) :
    Double.decode e 0 = 2 ^ (51 + e.val) := by
  rw [Double.decode_pos_exp e 0 he]
  have h0 : ((0 : Fin (2 ^ 52)).val) = 0 := rfl
  rw [h0, Nat.add_zero, ← pow_add]
  congr 1
  omega

theorem Double.encode_zero (s : Bool) : Double.encode s 0 = Double.fin s 0 0 := by
  have h := Double.encode_decode s 0 0
  rw [Double.decode_zero] at h
  exact h

theorem Double.round_zero (s : Bool) (up down : Nat) :
    Double.round s 0 up down = Double.fin s 0 0 := by
  unfold Double.round
  simp only [Nat.zero_div, Nat.zero_mod, Nat.mul_zero]
  rw [if_neg, Nat.zero_mul, Double.encode_zero]
  have hp := Nat.two_pow_pos (max (bitLen 0 - 53) (down - up))
  omega

theorem Double.round_small (s : Bool) (N up : Nat) (hN : bitLen N ≤ 53) :
    Double.round s N up 0 = Double.encode s (N * 2 ^ up) := by
  have hd : max (bitLen N - 53) (0 - up) = 0 := by omega
  unfold Double.round
  simp only [hd, pow_zero, Nat.div_one, Nat.mod_one, Nat.mul_zero]
  rw [if_neg (by omega)]
  have h0 : 0 + up - 0 = up := by omega
  rw [h0]

theorem Double.round_mul_pow (s : Bool) (e : Fin 2047) (f : Fin (2 ^ 52)) (e1 : Fin 2047)
    (j : Nat) (h1 : e1.val ≠ 0) (hj : 51 + e1.val = j) :
    Double.round s (Double.decode e f * Double.decode e1 0) 0 j = Double.fin s e f := by
  rw [Double.decode_pow e1 h1, hj]
  exact Double.round_exact s e f j

theorem Double.round_one_pow (s : Bool) (e1 : Fin 2047) (up : Nat) (h1 : e1.val ≠ 0)
    (hj : 51 + e1.val = up) : Double.round s 1 up 0 = Double.fin s e1 0 := by
  rw [Double.round_small s 1 up (by decide), Nat.one_mul, ← hj, ← Double.decode_pow e1 h1,
    Double.encode_decode]

theorem Double.mul_one_eq (x : Double) : x * (1 : Double) = x := by
  show Double.mul x (Double.fin false 1023 0) = x
  cases x with
  | nan => rfl
  | inf s =>
    have h : Double.decode 1023 0 ≠ 0 := by
      rw [Double.decode_pow 1023 (by decide)]
      exact (Nat.two_pow_pos _).ne'
    simp only [Double.mul, h, if_false, Bool.xor_false]
  | fin s e f =>
    simp only [Double.mul, Bool.xor_false]
    exact Double.round_mul_pow s e f 1023 1074 (by decide) (by decide)

theorem Double.intCast_one : ((1 : Int) : Double) = 1 := by
  show Double.ofInt 1 = Double.fin false 1023 0
  unfold Double.ofInt
  have h1 : decide ((1 : Int) < 0) = false := by decide
  have h2 : (1 : Int).natAbs = 1 := rfl
  rw [h1, h2]
  exact Double.round_one_pow false 1023 1074 (by decide) (by decide)

theorem Double.intCast_zero : ((0 : Int) : Double) = 0 := by
  show Double.ofInt 0 = Double.fin false 0 0
  unfold Double.ofInt
  have h1 : decide ((0 : Int) < 0) = false := by decide
  have h2 : (0 : Int).natAbs = 0 := rfl
  rw [h1, h2]
  exact Double.round_zero false 1074 0

theorem Double.mul_zero_fin (s t : Bool) (e : Fin 2047) (f : Fin (2 ^ 52)) :
    Double.mul (Double.fin s e f) (Double.fin t 0 0) = Double.fin (xor s t) 0 0 := by
  simp only [Double.mul, Double.decode_zero, Nat.mul_zero, Double.round_zero]

theorem Double.zero_mul_fin (s t : Bool) (e : Fin 2047) (f : Fin (2 ^ 52)) :
    Double.mul (Double.fin s 0 0) (Double.fin t e f) = Double.fin (xor s t) 0 0 := by
  simp only [Double.mul, Double.decode_zero, Nat.zero_mul, Double.round_zero]

theorem Double.intCast_finite (i : Int) (h : bitLen i.natAbs ≤ 53) :
    ∃ e f, ((i : Int) : Double) = Double.fin (decide (i < 0)) e f := by
  show ∃ e f, Double.ofInt i = Double.fin (decide (i < 0)) e f
  unfold Double.ofInt
  rw [Double.round_small _ _ _ h]
  have hb : bitLen (i.natAbs * 2 ^ 1074) ≤ 2098 := by
    by_cases hn : i.natAbs = 0
    · rw [hn, Nat.zero_mul, bitLen_zero]
      exact Nat.zero_le _
    · rw [bitLen_mul_pow _ _ hn]
      omega
  unfold Double.encode
  rw [if_neg (by omega)]
  split_ifs
  · exact ⟨_, _, rfl⟩
  · exact ⟨_, _, rfl⟩

theorem Double.zero_add_eq (x : Double) :
    (0 : Double) + x = if x = Double.fin true 0 0 then 0 else x := by
  show Double.add (Double.fin false 0 0) x = _
  cases x with
  | nan => rfl
  | inf s => rfl
  | fin s e f =>
    have hr := Double.round_exact s e f 0
    rw [pow_zero, Nat.mul_one] at hr
    cases s with
    | false =>
      simp only [Double.add, if_true, Double.decode_zero, Nat.zero_add, hr]
      rw [if_neg (by simp)]
    | true =>
      simp only [Double.add, Double.decode_zero, Nat.not_lt_zero, if_false, Nat.sub_zero, hr]
      by_cases hn : 0 < Double.decode e f
      · rw [if_neg (by decide), if_pos hn, if_neg]
        intro h
        injection h with h1 h2 h3
        subst h2
        subst h3
        rw [Double.decode_zero] at hn
        exact absurd hn (by decide)
      · rw [if_neg (by decide), if_neg hn]
        have h0 : Double.decode e f = 0 := by omega
        have hx := Double.encode_decode true e f
        rw [h0, Double.encode_zero] at hx
        rw [← hx, if_pos rfl]
        rfl

theorem Double.zero_add_sameValue (x : Double) : Double.sameValue ((0 : Double) + x) x := by
  rw [Double.zero_add_eq]
  by_cases h : x = Double.fin true 0 0
  · rw [if_pos h, h]
    exact Or.inr ⟨rfl, rfl⟩
  · rw [if_neg h]
    exact Or.inl rfl

theorem Double.zero_add_zero : (0 : Double) + 0 = 0 := by
  rw [Double.zero_add_eq]
  rfl

theorem Double.isZero_iff (x : Double) : x.isZero = true ↔ ∃ s, x = Double.fin s 0 0 := by
  constructor
  · intro h
    cases x with
    | nan => exact absurd h (by decide)
    | inf s => exact absurd h (by simp [Double.isZero, Double.isFinite])
    | fin s e f =>
      simp only [Double.isZero, decide_eq_true_eq] at h
      exact ⟨s, congrArg₂ (Double.fin s) (Fin.ext h.1) (Fin.ext h.2)⟩
  · rintro ⟨s, rfl⟩
    rfl

theorem Double.isFinite_iff (x : Double) :
    x.isFinite = true ↔ ∃ s e f, x = Double.fin s e f := by
  constructor
  · intro h
    cases x with
    | nan => exact absurd h (by decide)
    | inf s => exact absurd h (by simp [Double.isZero, Double.isFinite])
    | fin s e f => exact ⟨s, e, f, rfl⟩
  · rintro ⟨s, e, f, rfl⟩
    rfl

theorem Double.isFinite_of_isZero (x : Double) (h : x.isZero = true) : x.isFinite = true := by
  obtain ⟨s, rfl⟩ := (Double.isZero_iff x).mp h
  rfl

theorem Double.zero_add_of_isZero (x : Double) (h : x.isZero = true) : (0 : Double) + x = 0 := by
  obtain ⟨s, rfl⟩ := (Double.isZero_iff x).mp h
  rw [Double.zero_add_eq]
  cases s
  · rw [if_neg (by decide)]
    rfl
  · rw [if_pos rfl]

theorem Double.mul_isZero_right (x y : Double) (hx : x.isFinite = true)
    (hy : y.isZero = true) : (x * y).isZero = true := by
  obtain ⟨s, e, f, rfl⟩ := (Double.isFinite_iff x).mp hx
  obtain ⟨t, rfl⟩ := (Double.isZero_iff y).mp hy
  show (Double.mul (Double.fin s e f) (Double.fin t 0 0)).isZero = true
  rw [Double.mul_zero_fin]
  rfl

theorem Double.mul_isZero_left (x y : Double) (hx : x.isZero = true)
    (hy : y.isFinite = true) : (x * y).isZero = true := by
  obtain ⟨s, rfl⟩ := (Double.isZero_iff x).mp hx
  obtain ⟨t, e, f, rfl⟩ := (Double.isFinite_iff y).mp hy
  show (Double.mul (Double.fin s 0 0) (Double.fin t e f)).isZero = true
  rw [Double.zero_mul_fin]
  rfl

theorem Double.neg_isFinite (x : Double) (h : x.isFinite = true) : (-x).isFinite = true := by
  obtain ⟨s, e, f, rfl⟩ := (Double.isFinite_iff x).mp h
  rfl

theorem Double.neg_isZero (x : Double) (h : x.isZero = true) : (-x).isZero = true := by
  obtain ⟨s, rfl⟩ := (Double.isZero_iff x).mp h
  rfl

theorem Double.intCast_isFinite (i : Int) (h : INT_MIN ≤ i ∧ i ≤ INT_MAX) :
    ((i : Int) : Double).isFinite = true := by
  have hb : bitLen i.natAbs ≤ 53 := by
    apply bitLen_le
    unfold INT_MIN INT_MAX at h
    omega
  obtain ⟨e, f, hef⟩ := Double.intCast_finite i hb
  rw [hef]
  rfl

theorem Double.not_sameValue_nan_zero : ¬ Double.sameValue Double.nan 0 := by
  rintro (h | ⟨h, _⟩)
  · exact absurd h (by decide)
  · exact absurd h (by decide)

theorem Double.coupling_isZero (i j : Nat) (a b c d a2 b2 c2 d2 : Double)
    (ha : a.isZero = true) (hb : b.isZero = true) (hc : c.isZero = true)
    (hd : d.isZero = true) (ha2 : a2.isZero = true) (hb2 : b2.isZero = true)
    (hc2 : c2.isZero = true) (hd2 : d2.isZero = true) :
    (if i = 1 ∧ j = 13 then a
      else if i = 1 ∧ j = 15 then b
      else if i = 3 ∧ j = 14 then c
      else if i = 5 ∧ j = 15 then d
      else if i = 7 ∧ j = 13 then a2
      else if i = 7 ∧ j = 15 then b2
      else if i = 9 ∧ j = 14 then c2
      else if i = 11 ∧ j = 15 then d2
      else (0 : Double)).isZero = true := by
  split_ifs <;> first | assumption | rfl

theorem LIBeam3dBoundaryBeam.coupling_zero_of_zero_switches (e : LIBeam3dBoundaryBeam Double)
    (i j : Nat) (hi : 1 ≤ i ∧ i ≤ 12) (hj : 1 ≤ j ∧ j ≤ 15) (hj13 : 13 ≤ j)
    (hL : ((e.giveNode 3).giveCoordinate 1).isFinite = true)
    (hp1 : (-((e.giveNode 1).giveCoordinate 3) * (e.giveNode 3).giveCoordinate 1).isFinite
      = true)
    (hp2 : (-((e.giveNode 2).giveCoordinate 3) * (e.giveNode 3).giveCoordinate 1).isFinite
      = true)
    (hs1 : (e.giveSwitches (e.location.at 1)).at 1 = 0)
    (hs2 : (e.giveSwitches (e.location.at 2)).at 1 = 0) :
    e.computeTransformationMatrix.at i j = 0 := by
  rw [LIBeam3dBoundaryBeam.computeTransformationMatrix_entry e i j hi hj]
  have n12 : ¬ j ≤ 12 := by omega
  rw [if_neg n12, hs1, hs2]
  apply Double.zero_add_of_isZero
  have hz : ((0 : Int) : Double).isZero = true := by
    rw [Double.intCast_zero]
    rfl
  have hnL := Double.neg_isFinite _ hL
  exact Double.coupling_isZero i j _ _ _ _ _ _ _ _
    (Double.mul_isZero_right _ _ hL hz) (Double.mul_isZero_right _ _ hp1 hz)
    (Double.mul_isZero_right _ _ hL hz) (Double.mul_isZero_right _ _ hnL hz)
    (Double.mul_isZero_right _ _ hL hz) (Double.mul_isZero_right _ _ hp2 hz)
    (Double.mul_isZero_right _ _ hL hz) (Double.mul_isZero_right _ _ hnL hz)

theorem LIBeam3dBoundaryBeam.coupling_zero_of_zero_cell (e : LIBeam3dBoundaryBeam Double)
    (i j : Nat) (hi : 1 ≤ i ∧ i ≤ 12) (hj : 1 ≤ j ∧ j ≤ 15) (hj13 : 13 ≤ j)
    (hLz : ((e.giveNode 3).giveCoordinate 1).isZero = true)
    (hz1 : ((e.giveNode 1).giveCoordinate 3).isFinite = true)
    (hz2 : ((e.giveNode 2).giveCoordinate 3).isFinite = true)
    (hr1 : INT_MIN ≤ (e.giveSwitches (e.location.at 1)).at 1
      ∧ (e.giveSwitches (e.location.at 1)).at 1 ≤ INT_MAX)
    (hr2 : INT_MIN ≤ (e.giveSwitches (e.location.at 2)).at 1
      ∧ (e.giveSwitches (e.location.at 2)).at 1 ≤ INT_MAX) :
    e.computeTransformationMatrix.at i j = 0 := by
  rw [LIBeam3dBoundaryBeam.computeTransformationMatrix_entry e i j hi hj]
  have n12 : ¬ j ≤ 12 := by omega
  rw [if_neg n12]
  apply Double.zero_add_of_isZero
  have hc1 := Double.intCast_isFinite _ hr1
  have hc2 := Double.intCast_isFinite _ hr2
  have hnz1 := Double.neg_isFinite _ hz1
  have hnz2 := Double.neg_isFinite _ hz2
  have hnLz := Double.neg_isZero _ hLz
  exact Double.coupling_isZero i j _ _ _ _ _ _ _ _
    (Double.mul_isZero_left _ _ hLz hc1)
    (Double.mul_isZero_left _ _ (Double.mul_isZero_right _ _ hnz1 hLz) hc1)
    (Double.mul_isZero_left _ _ hLz hc1) (Double.mul_isZero_left _ _ hnLz hc1)
    (Double.mul_isZero_left _ _ hLz hc2)
    (Double.mul_isZero_left _ _ (Double.mul_isZero_right _ _ hnz2 hLz) hc2)
    (Double.mul_isZero_left _ _ hLz hc2) (Double.mul_isZero_left _ _ hnLz hc2)

/-! ## Claims on the boundary beam -/

/-- C5 fails as stated for a unit-cell size that is not finite: on the beam
with trivial geometry (`z1 = z2 = 0.0`), x-switch +1 at both end nodes and
unit-cell size `L` = +infinity, the entries (1,15) and (7,15) are NaN
(`-0.0 * inf`), not 0. -/
theorem C5_infinite_cell_counterexample :
    (infiniteCellBeam.giveSwitches (infiniteCellBeam.location.at 1)).at 1 = 1
    ∧ (infiniteCellBeam.giveSwitches (infiniteCellBeam.location.at 2)).at 1 = 1
    ∧ (infiniteCellBeam.giveNode 1).giveCoordinate 3 = 0
    ∧ (infiniteCellBeam.giveNode 2).giveCoordinate 3 = 0
    ∧ infiniteCellBeam.computeTransformationMatrix.at 1 15 = Double.nan
    ∧ infiniteCellBeam.computeTransformationMatrix.at 7 15 = Double.nan
    ∧ ¬ Double.sameValue (infiniteCellBeam.computeTransformationMatrix.at 1 15) 0
    ∧ ¬ Double.sameValue (infiniteCellBeam.computeTransformationMatrix.at 7 15) 0 := by
  have hs1 : (infiniteCellBeam.giveSwitches (infiniteCellBeam.location.at 1)).at 1 = 1 := by
    decide
  have hs2 : (infiniteCellBeam.giveSwitches (infiniteCellBeam.location.at 2)).at 1 = 1 := by
    decide
  have h1 : infiniteCellBeam.computeTransformationMatrix.at 1 15 = Double.nan := by
    rw [LIBeam3dBoundaryBeam.computeTransformationMatrix_at_1_15, hs1, Double.intCast_one,
      Double.mul_one_eq]
    rfl
  have h7 : infiniteCellBeam.computeTransformationMatrix.at 7 15 = Double.nan := by
    rw [LIBeam3dBoundaryBeam.computeTransformationMatrix_at_7_15, hs2, Double.intCast_one,
      Double.mul_one_eq]
    rfl
  refine ⟨by decide, by decide, rfl, rfl, h1, h7, ?_, ?_⟩
  · rw [h1]
    exact Double.not_sameValue_nan_zero
  · rw [h7]
    exact Double.not_sameValue_nan_zero

/-- C5, amended: with x-switch +1 at both end nodes, unit-cell size `L` (first
coordinate of node 3) and end-node z-coordinates `z1`, `z2`, all of them
doubles, `computeTransformationMatrix` returns a matrix of 12 rows and 15
columns whose entry in row `i`, column `j` holds the same value as: the
identity in columns 1..12; in columns 13..15 the value `L` at (1,13), `-z1*L`
at (1,15), `L` at (3,14), `-L` at (5,15), `L` at (7,13), `-z2*L` at (7,15), `L`
at (9,14), `-L` at (11,15), and 0 everywhere else (products are double
products). When `L` is finite and `z1`, `z2` are zeros, the entries (1,15) and
(7,15) are 0.0. -/
theorem C5_transformation_matrix_switch_one (e : LIBeam3dBoundaryBeam Double) (i j : Nat)
    (hs1 : (e.giveSwitches (e.location.at 1)).at 1 = 1)
    (hs2 : (e.giveSwitches (e.location.at 2)).at 1 = 1)
    (hi : 1 ≤ i ∧ i ≤ 12) (hj : 1 ≤ j ∧ j ≤ 15) :
    e.computeTransformationMatrix.nRows = 12
    ∧ e.computeTransformationMatrix.nColumns = 15
    ∧ Double.sameValue (e.computeTransformationMatrix.at i j)
        (if j ≤ 12 then (if i = j then 1 else 0)
         else if i = 1 ∧ j = 13 then (e.giveNode 3).giveCoordinate 1
         else if i = 1 ∧ j = 15 then
           -((e.giveNode 1).giveCoordinate 3) * (e.giveNode 3).giveCoordinate 1
         else if i = 3 ∧ j = 14 then (e.giveNode 3).giveCoordinate 1
         else if i = 5 ∧ j = 15 then -((e.giveNode 3).giveCoordinate 1)
         else if i = 7 ∧ j = 13 then (e.giveNode 3).giveCoordinate 1
         else if i = 7 ∧ j = 15 then
           -((e.giveNode 2).giveCoordinate 3) * (e.giveNode 3).giveCoordinate 1
         else if i = 9 ∧ j = 14 then (e.giveNode 3).giveCoordinate 1
         else if i = 11 ∧ j = 15 then -((e.giveNode 3).giveCoordinate 1)
         else 0)
    ∧ (((e.giveNode 3).giveCoordinate 1).isFinite = true →
        ((e.giveNode 1).giveCoordinate 3).isZero = true →
        ((e.giveNode 2).giveCoordinate 3).isZero = true →
        e.computeTransformationMatrix.at 1 15 = 0 ∧ e.computeTransformationMatrix.at 7 15 = 0) := by
  refine ⟨(LIBeam3dBoundaryBeam.computeTransformationMatrix_size e).1,
    (LIBeam3dBoundaryBeam.computeTransformationMatrix_size e).2, ?_, ?_⟩
  · rw [LIBeam3dBoundaryBeam.computeTransformationMatrix_entry e i j hi hj, hs1, hs2]
    simp only [Double.intCast_one, Double.mul_one_eq]
    by_cases h : j ≤ 12
    · rw [if_pos h, if_pos h]
      exact Or.inl rfl
    · rw [if_neg h, if_neg h]
      exact Double.zero_add_sameValue _
  · intro hL hz1 hz2
    rw [LIBeam3dBoundaryBeam.computeTransformationMatrix_at_1_15,
      LIBeam3dBoundaryBeam.computeTransformationMatrix_at_7_15, hs1, hs2]
    simp only [Double.intCast_one, Double.mul_one_eq]
    exact ⟨Double.zero_add_of_isZero _
        (Double.mul_isZero_left _ _ (Double.neg_isZero _ hz1) hL),
      Double.zero_add_of_isZero _
        (Double.mul_isZero_left _ _ (Double.neg_isZero _ hz2) hL)⟩

/-- The entry (1, 15) of the sample beam (`L` = 0.1, `z1` = 0.3) is the double
with the encoding 0xBF9EB851EB851EB8, the rounded product `-0.3 * 0.1` that
the C++ code stores. -/
theorem sampleBeam_at_1_15_bits :
    Double.toBits (sampleBeam.computeTransformationMatrix.at 1 15) = 0xBF9EB851EB851EB8 := by
  decide!

/-- Witness of C5: the sample beam (`L` = 0.1, `z1` = 0.3, `z2` = 3.0, switches
(1, 0, 0)), entry (1, 15), which holds the double product `-0.3 * 0.1`. -/
theorem C5_transformation_matrix_switch_one_witness :
    (sampleBeam.giveSwitches (sampleBeam.location.at 1)).at 1 = 1
    ∧ (sampleBeam.giveSwitches (sampleBeam.location.at 2)).at 1 = 1
    ∧ (1 ≤ 1 ∧ 1 ≤ 12) ∧ (1 ≤ 15 ∧ 15 ≤ 15)
    ∧ sampleBeam.computeTransformationMatrix.nRows = 12
    ∧ sampleBeam.computeTransformationMatrix.nColumns = 15
    ∧ Double.sameValue (sampleBeam.computeTransformationMatrix.at 1 15)
        (-(Double.ofBits 0x3FD3333333333333) * Double.ofBits 0x3FB999999999999A) :=
  ⟨by decide, by decide, by decide, by decide,
    (C5_transformation_matrix_switch_one sampleBeam 1 15 (by decide) (by decide)
      (by decide) (by decide)).1,
    (C5_transformation_matrix_switch_one sampleBeam 1 15 (by decide) (by decide)
      (by decide) (by decide)).2.1,
    (C5_transformation_matrix_switch_one sampleBeam 1 15 (by decide) (by decide)
      (by decide) (by decide)).2.2.1⟩

/-- C6: `giveDofManDofIDMask` gives, for local node 3 (the control node), the
mask `[E_xx, E_zx, K_xx]`, and for every other local node index the mask
`[D_u, D_v, D_w, R_u, R_v, R_w]`, three translations followed by three
rotations, in that order; neither mask has a duplicate entry. -/
theorem C6_dof_id_mask (inode : Int) (h : inode ≠ 3) :
    LIBeam3dBoundaryBeam.giveDofManDofIDMask 3
        = [DofIDItem.E_xx, DofIDItem.E_zx, DofIDItem.K_xx]
    ∧ LIBeam3dBoundaryBeam.giveDofManDofIDMask inode
        = [DofIDItem.D_u, DofIDItem.D_v, DofIDItem.D_w,
            DofIDItem.R_u, DofIDItem.R_v, DofIDItem.R_w]
    ∧ (LIBeam3dBoundaryBeam.giveDofManDofIDMask 3).Nodup
    ∧ (LIBeam3dBoundaryBeam.giveDofManDofIDMask inode).Nodup := by
  have h3 : LIBeam3dBoundaryBeam.giveDofManDofIDMask 3
      = [DofIDItem.E_xx, DofIDItem.E_zx, DofIDItem.K_xx] := by
    simp [LIBeam3dBoundaryBeam.giveDofManDofIDMask]
  have hn : LIBeam3dBoundaryBeam.giveDofManDofIDMask inode
      = [DofIDItem.D_u, DofIDItem.D_v, DofIDItem.D_w,
          DofIDItem.R_u, DofIDItem.R_v, DofIDItem.R_w] := by
    simp [LIBeam3dBoundaryBeam.giveDofManDofIDMask, h]
  refine ⟨h3, hn, ?_, ?_⟩
  · rw [h3]
    decide
  · rw [hn]
    decide

/-- Witness of C6: the beam end node 2. -/
theorem C6_dof_id_mask_witness :
    (2 : Int) ≠ 3
    ∧ LIBeam3dBoundaryBeam.giveDofManDofIDMask 3
        = [DofIDItem.E_xx, DofIDItem.E_zx, DofIDItem.K_xx]
    ∧ LIBeam3dBoundaryBeam.giveDofManDofIDMask 2
        = [DofIDItem.D_u, DofIDItem.D_v, DofIDItem.D_w,
            DofIDItem.R_u, DofIDItem.R_v, DofIDItem.R_w]
    ∧ (LIBeam3dBoundaryBeam.giveDofManDofIDMask 3).Nodup
    ∧ (LIBeam3dBoundaryBeam.giveDofManDofIDMask 2).Nodup :=
  ⟨by decide, C6_dof_id_mask 2 (by decide)⟩

/-! ## Claim on the cohesive zone material -/

/-- C10: `hasAnalyticalTangentStiffness()` of `IntMatBilinearCZ` returns
false for every parameter set; the function takes no state and reads no
member. -/
theorem C10_no_analytical_tangent {R : Type} (m : IntMatBilinearCZ R) :
    m.hasAnalyticalTangentStiffness = false := rfl

/-! ## Further claims on the boundary beam and on the numbering schemes -/

/-- C11 fails as stated for inputs that are not finite: on the beam with
end-node coordinates 0.0, unit-cell size `L` = +infinity and x-switches
`s1 = s2 = 0`, the entry (1,13) of the result is NaN (`inf * 0.0`), so the
matrix is not `[I12 | 0]`. -/
theorem C11_zero_switch_infinite_cell_counterexample :
    (infiniteCellBeamZeroSwitch.giveSwitches (infiniteCellBeamZeroSwitch.location.at 1)).at 1 = 0
    ∧ (infiniteCellBeamZeroSwitch.giveSwitches
        (infiniteCellBeamZeroSwitch.location.at 2)).at 1 = 0
    ∧ infiniteCellBeamZeroSwitch.computeTransformationMatrix.at 1 13 = Double.nan
    ∧ ¬ Double.sameValue (infiniteCellBeamZeroSwitch.computeTransformationMatrix.at 1 13) 0 := by
  have hs1 : (infiniteCellBeamZeroSwitch.giveSwitches
      (infiniteCellBeamZeroSwitch.location.at 1)).at 1 = 0 := by decide
  have h1 : infiniteCellBeamZeroSwitch.computeTransformationMatrix.at 1 13 = Double.nan := by
    rw [LIBeam3dBoundaryBeam.computeTransformationMatrix_at_1_13, hs1, Double.intCast_zero]
    rfl
  refine ⟨hs1, by decide, h1, ?_⟩
  rw [h1]
  exact Double.not_sameValue_nan_zero

/-- C11, amended: for every boundary beam with double coordinates,
`computeTransformationMatrix` returns the matrix `[I12 | K]` of 12 rows and 15
columns. With `L` the first coordinate of node 3, `s1`, `s2` the first
components of the switches of the two end-node locations and `z1`, `z2` the
third coordinates of nodes 1 and 2, the entry in row `i`, column `j` holds the
same value as the identity in columns 1..12 and, in columns 13..15, `L*s1` at
(1,13), `-z1*L*s1` at (1,15), `L*s1` at (3,14), `-L*s1` at (5,15), `L*s2` at
(7,13), `-z2*L*s2` at (7,15), `L*s2` at (9,14), `-L*s2` at (11,15) and 0
elsewhere (double products, taken from left to right). The even rows of `K`
are 0.0. A beam `e'` with the same `L`, `s1`, `s2`, `z1`, `z2` has the same
entry, whatever its other switch components and coordinates. When `L`, `z1`,
`z2` and the products `-z1*L`, `-z2*L` are finite and the switches are `int`
values, `K` is 0.0 as soon as `s1 = s2 = 0` or `L` is a zero. -/
theorem C11_transformation_matrix_general (e e' : LIBeam3dBoundaryBeam Double)
    (i j : Nat) (hi : 1 ≤ i ∧ i ≤ 12) (hj : 1 ≤ j ∧ j ≤ 15) :
    e.computeTransformationMatrix.nRows = 12
    ∧ e.computeTransformationMatrix.nColumns = 15
    ∧ Double.sameValue (e.computeTransformationMatrix.at i j)
        (if j ≤ 12 then (if i = j then 1 else 0)
         else if i = 1 ∧ j = 13 then
           (e.giveNode 3).giveCoordinate 1
             * (((e.giveSwitches (e.location.at 1)).at 1 : Int) : Double)
         else if i = 1 ∧ j = 15 then
           -((e.giveNode 1).giveCoordinate 3) * (e.giveNode 3).giveCoordinate 1
             * (((e.giveSwitches (e.location.at 1)).at 1 : Int) : Double)
         else if i = 3 ∧ j = 14 then
           (e.giveNode 3).giveCoordinate 1
             * (((e.giveSwitches (e.location.at 1)).at 1 : Int) : Double)
         else if i = 5 ∧ j = 15 then
           -((e.giveNode 3).giveCoordinate 1)
             * (((e.giveSwitches (e.location.at 1)).at 1 : Int) : Double)
         else if i = 7 ∧ j = 13 then
           (e.giveNode 3).giveCoordinate 1
             * (((e.giveSwitches (e.location.at 2)).at 1 : Int) : Double)
         else if i = 7 ∧ j = 15 then
           -((e.giveNode 2).giveCoordinate 3) * (e.giveNode 3).giveCoordinate 1
             * (((e.giveSwitches (e.location.at 2)).at 1 : Int) : Double)
         else if i = 9 ∧ j = 14 then
           (e.giveNode 3).giveCoordinate 1
             * (((e.giveSwitches (e.location.at 2)).at 1 : Int) : Double)
         else if i = 11 ∧ j = 15 then
           -((e.giveNode 3).giveCoordinate 1)
             * (((e.giveSwitches (e.location.at 2)).at 1 : Int) : Double)
         else 0)
    ∧ (i % 2 = 0 → 13 ≤ j → e.computeTransformationMatrix.at i j = 0)
    ∧ (((e.giveNode 3).giveCoordinate 1).isFinite = true →
        ((e.giveNode 1).giveCoordinate 3).isFinite = true →
        ((e.giveNode 2).giveCoordinate 3).isFinite = true →
        (-((e.giveNode 1).giveCoordinate 3) * (e.giveNode 3).giveCoordinate 1).isFinite = true →
        (-((e.giveNode 2).giveCoordinate 3) * (e.giveNode 3).giveCoordinate 1).isFinite = true →
        (INT_MIN ≤ (e.giveSwitches (e.location.at 1)).at 1
          ∧ (e.giveSwitches (e.location.at 1)).at 1 ≤ INT_MAX) →
        (INT_MIN ≤ (e.giveSwitches (e.location.at 2)).at 1
          ∧ (e.giveSwitches (e.location.at 2)).at 1 ≤ INT_MAX) →
        ((e.giveSwitches (e.location.at 1)).at 1 = 0 ∧ (e.giveSwitches (e.location.at 2)).at 1 = 0)
          ∨ ((e.giveNode 3).giveCoordinate 1).isZero = true →
        13 ≤ j → e.computeTransformationMatrix.at i j = 0)
    ∧ ((e'.giveNode 3).giveCoordinate 1 = (e.giveNode 3).giveCoordinate 1 →
        (e'.giveSwitches (e'.location.at 1)).at 1 = (e.giveSwitches (e.location.at 1)).at 1 →
        (e'.giveSwitches (e'.location.at 2)).at 1 = (e.giveSwitches (e.location.at 2)).at 1 →
        (e'.giveNode 1).giveCoordinate 3 = (e.giveNode 1).giveCoordinate 3 →
        (e'.giveNode 2).giveCoordinate 3 = (e.giveNode 2).giveCoordinate 3 →
        e'.computeTransformationMatrix.at i j = e.computeTransformationMatrix.at i j) := by
  refine ⟨(LIBeam3dBoundaryBeam.computeTransformationMatrix_size e).1,
    (LIBeam3dBoundaryBeam.computeTransformationMatrix_size e).2, ?_, ?_, ?_, ?_⟩
  · rw [LIBeam3dBoundaryBeam.computeTransformationMatrix_entry e i j hi hj]
    by_cases h : j ≤ 12
    · rw [if_pos h, if_pos h]
      exact Or.inl rfl
    · rw [if_neg h, if_neg h]
      exact Double.zero_add_sameValue _
  · intro hev hj13
    rw [LIBeam3dBoundaryBeam.computeTransformationMatrix_entry e i j hi hj]
    have n1 : i ≠ 1 := by omega
    have n3 : i ≠ 3 := by omega
    have n5 : i ≠ 5 := by omega
    have n7 : i ≠ 7 := by omega
    have n9 : i ≠ 9 := by omega
    have n11 : i ≠ 11 := by omega
    have n12 : ¬ j ≤ 12 := by omega
    simp only [n1, n3, n5, n7, n9, n11, n12, if_false, false_and]
    exact Double.zero_add_zero
  · intro hL hz1 hz2 hp1 hp2 hr1 hr2 h0 hj13
    rcases h0 with ⟨hs1, hs2⟩ | hLz
    · exact LIBeam3dBoundaryBeam.coupling_zero_of_zero_switches e i j hi hj hj13 hL hp1 hp2
        hs1 hs2
    · exact LIBeam3dBoundaryBeam.coupling_zero_of_zero_cell e i j hi hj hj13 hLz hz1 hz2
        hr1 hr2
  · intro hL hs1 hs2 hz1 hz2
    rw [LIBeam3dBoundaryBeam.computeTransformationMatrix_entry e i j hi hj,
      LIBeam3dBoundaryBeam.computeTransformationMatrix_entry e' i j hi hj, hL, hs1, hs2, hz1, hz2]

/-- Witness of C11: the shifted sample beam (`L` = 0.1, `z1` = 0.3,
`s1` = -1), entry (1, 15), which holds the double product `-0.3 * 0.1 * -1`;
the beam with the nodes of `sampleBeam` and other second and third switch
components has the same entry. -/
theorem C11_transformation_matrix_general_witness :
    (1 ≤ 1 ∧ 1 ≤ 12) ∧ (1 ≤ 15 ∧ 15 ≤ 15)
    ∧ sampleBeamShifted.computeTransformationMatrix.nRows = 12
    ∧ sampleBeamShifted.computeTransformationMatrix.nColumns = 15
    ∧ Double.sameValue (sampleBeamShifted.computeTransformationMatrix.at 1 15)
        (-(Double.ofBits 0x3FD3333333333333) * Double.ofBits 0x3FB999999999999A
          * (((-1 : Int)) : Double))
    ∧ (LIBeam3dBoundaryBeam.mk sampleBeam.giveNode sampleBeamShifted.location
          (fun l => if l = 3 then ⟨[-1, 0, 1]⟩ else ⟨[1, 1, 1]⟩)).computeTransformationMatrix.at
          1 15
        = sampleBeamShifted.computeTransformationMatrix.at 1 15 :=
  ⟨by decide, by decide,
    (C11_transformation_matrix_general sampleBeamShifted sampleBeamShifted 1 15
      (by decide) (by decide)).1,
    (C11_transformation_matrix_general sampleBeamShifted sampleBeamShifted 1 15
      (by decide) (by decide)).2.1,
    (C11_transformation_matrix_general sampleBeamShifted sampleBeamShifted 1 15
      (by decide) (by decide)).2.2.1,
    (C11_transformation_matrix_general sampleBeamShifted
      (LIBeam3dBoundaryBeam.mk sampleBeam.giveNode sampleBeamShifted.location
        (fun l => if l = 3 then ⟨[-1, 0, 1]⟩ else ⟨[1, 1, 1]⟩)) 1 15
      (by decide) (by decide)).2.2.2.2.2 rfl (by decide) (by decide) rfl rfl⟩

/-- C12: the velocity field and the pressure field are disjoint. For every
Dof, every velocity scheme and every pressure scheme (free or prescribed, any
count), at least one of the two `giveDofEquationNumber` results is 0; the dof
ids `V_u`, `V_v`, `V_w` all differ from `P_f`. -/
theorem C12_velocity_pressure_disjoint (sv : VelocityEquationNumbering)
    (sp : PressureEquationNumbering) (dof : Dof) :
    (sv.giveDofEquationNumber dof = 0 ∨ sp.giveDofEquationNumber dof = 0)
    ∧ DofIDItem.V_u ≠ DofIDItem.P_f ∧ DofIDItem.V_v ≠ DofIDItem.P_f
    ∧ DofIDItem.V_w ≠ DofIDItem.P_f := by
  refine ⟨?_, by decide, by decide, by decide⟩
  by_cases hP : dof.giveDofID = DofIDItem.P_f
  · left
    unfold VelocityEquationNumbering.giveDofEquationNumber
    simp [hP]
  · right
    unfold PressureEquationNumbering.giveDofEquationNumber
    simp [hP]

/-- C13: the dof-id masks of `LIBeam3dBoundaryBeam` fit its transformation
matrix. The mask lengths of local nodes 1 and 2 sum to 12, the number of rows
of the matrix; those of local nodes 1, 2 and 3 sum to 15, its number of
columns; and the mask of node 3 has 3 entries, one for each of the columns
13..15 that follow the 12 columns of the end nodes. -/
theorem C13_mask_matches_matrix_size {R : Type} [Zero R] [One R] [Add R] [Mul R] [Neg R]
    [IntCast R] (e : LIBeam3dBoundaryBeam R) :
    (LIBeam3dBoundaryBeam.giveDofManDofIDMask 1).length
        + (LIBeam3dBoundaryBeam.giveDofManDofIDMask 2).length
      = e.computeTransformationMatrix.nRows
    ∧ (LIBeam3dBoundaryBeam.giveDofManDofIDMask 1).length
        + (LIBeam3dBoundaryBeam.giveDofManDofIDMask 2).length
        + (LIBeam3dBoundaryBeam.giveDofManDofIDMask 3).length
      = e.computeTransformationMatrix.nColumns
    ∧ e.computeTransformationMatrix.nRows = 12
    ∧ e.computeTransformationMatrix.nColumns = 15
    ∧ (LIBeam3dBoundaryBeam.giveDofManDofIDMask 3).length = 3
    ∧ e.computeTransformationMatrix.nRows
        + (LIBeam3dBoundaryBeam.giveDofManDofIDMask 3).length
      = e.computeTransformationMatrix.nColumns := by
  rw [(LIBeam3dBoundaryBeam.computeTransformationMatrix_size e).1,
    (LIBeam3dBoundaryBeam.computeTransformationMatrix_size e).2]
  decide

end oofem
